import Mathlib

/-!
Shallow embedding of `process_video_fft.py`, a per-frame video spectrum
visualizer: each frame is converted to grayscale, transformed by a 2-D DFT,
the zero frequency is shifted to the centre, the log-magnitude is min-max
normalized onto [0, 255] and replicated to three channels; a static HTML
viewer is generated by two placeholder substitutions in a fixed template.
Floating-point arithmetic of the source is modelled over `ℝ`/`ℂ`; 8-bit
pixel values are modelled as `ℕ`.
-/

/-- Replace occurrences of `pat` in a character list, scanning left to right
without overlap, as Python `str.replace` does; `fuel` bounds the recursion
and is instantiated with the length of the subject string. -/
def replaceAllFuel (pat rep : List Char) : ℕ → List Char → List Char
  | 0, s => s
  | _ + 1, [] => []
  | fuel + 1, c :: rest =>
    if pat.isPrefixOf (c :: rest) then
      rep ++ replaceAllFuel pat rep fuel (List.drop pat.length (c :: rest))
    else
      c :: replaceAllFuel pat rep fuel rest

/-- Python `str.replace` on character lists (all occurrences, left to right);
the empty pattern does not occur in the program, so it is mapped to the
identity. -/
def replaceAll (s pat rep : List Char) : List Char :=
  if pat.isEmpty then s else replaceAllFuel pat rep s.length s

/-- Python `str.replace` lifted to `String`. -/
def stringReplace (s pat rep : String) : String :=
  String.mk (replaceAll s.toList pat.toList rep.toList)

/-- Count of non-overlapping occurrences of `pat`, scanning left to right;
`fuel` bounds the recursion. -/
def countOccurFuel (pat : List Char) : ℕ → List Char → ℕ
  | 0, _ => 0
  | _ + 1, [] => 0
  | fuel + 1, c :: rest =>
    if pat.isPrefixOf (c :: rest) then
      countOccurFuel pat fuel (List.drop pat.length (c :: rest)) + 1
    else
      countOccurFuel pat fuel rest

/-- Count of non-overlapping occurrences of `pat` in `s`. -/
def countOccur (s pat : String) : ℕ :=
  if pat.isEmpty then 0 else countOccurFuel pat.toList s.toList.length s.toList

/-- Wrapper fixing the fuel of `replaceAllFuel` at the subject's length (the
fuel `replaceAll` itself uses). -/
def replaceAllL (pat rep s : List Char) : List Char :=
  replaceAllFuel pat rep s.length s

/-- Wrapper fixing the fuel of `countOccurFuel` at the subject's length (the
fuel `countOccur` itself uses). -/
def countOccurL (pat s : List Char) : ℕ :=
  countOccurFuel pat s.length s

/-- Substring containment test on strings. -/
def containsSubstr (s pat : String) : Bool :=
  (List.range (s.toList.length + 1)).any fun i => pat.toList.isPrefixOf (s.toList.drop i)

/-- Modelled from the spec and `pathlib`: `Path(p).name` is the component of
the path after the final slash. -/
def pathName (s : String) : String :=
  String.mk ((s.toList.reverse.takeWhile fun c => c ≠ '/').reverse)

/-- Characters of a list of lines joined by a separator character
(`"\\n".join` at the character level). -/
def intercalateChar (sep : Char) : List (List Char) → List Char
  | [] => []
  | [x] => x
  | x :: y :: rest => x ++ sep :: intercalateChar sep (y :: rest)

/-- Verbatim lines of the HTML template of `generate_html` (source lines
93–397, one entry per source line); braces, apostrophes and backticks of
the source text appear through character escapes (`\x7b`, `\x7d`, `\x27`,
`\x60`). -/
def html_template_lines : List String := [
  "<!DOCTYPE html>",
  "<html lang=\"en\">",
  "<head>",
  "    <meta charset=\"UTF-8\">",
  "    <meta name=\"viewport\" content=\"width=device-width, initial-scale=1.0\">",
  "    <title>2D FFT Video Comparison</title>",
  "    <style>",
  "        body \x7b",
  "            margin: 0;",
  "            padding: 20px;",
  "            background-color: #1a1a1a;",
  "            color: #fff;",
  "            font-family: Arial, sans-serif;",
  "        \x7d",
  "        .container \x7b",
  "            max-width: 1800px;",
  "            margin: 0 auto;",
  "        \x7d",
  "        h1 \x7b",
  "            text-align: center;",
  "            margin-bottom: 30px;",
  "        \x7d",
  "        .video-container \x7b",
  "            display: flex;",
  "            gap: 20px;",
  "            justify-content: center;",
  "            margin-bottom: 30px;",
  "            flex-wrap: wrap;",
  "        \x7d",
  "        .video-wrapper \x7b",
  "            flex: 1;",
  "            min-width: 400px;",
  "            max-width: 800px;",
  "        \x7d",
  "        .video-wrapper h2 \x7b",
  "            text-align: center;",
  "            margin-bottom: 10px;",
  "            font-size: 18px;",
  "        \x7d",
  "        video \x7b",
  "            width: 100%;",
  "            height: auto;",
  "            background-color: #000;",
  "            display: block;",
  "        \x7d",
  "        .controls \x7b",
  "            background-color: #2a2a2a;",
  "            padding: 20px;",
  "            border-radius: 8px;",
  "            margin-bottom: 20px;",
  "        \x7d",
  "        .control-group \x7b",
  "            display: flex;",
  "            align-items: center;",
  "            gap: 15px;",
  "            margin-bottom: 15px;",
  "            flex-wrap: wrap;",
  "        \x7d",
  "        .control-group:last-child \x7b",
  "            margin-bottom: 0;",
  "        \x7d",
  "        button \x7b",
  "            padding: 10px 20px;",
  "            font-size: 16px;",
  "            background-color: #4CAF50;",
  "            color: white;",
  "            border: none;",
  "            border-radius: 4px;",
  "            cursor: pointer;",
  "            transition: background-color 0.3s;",
  "        \x7d",
  "        button:hover \x7b",
  "            background-color: #45a049;",
  "        \x7d",
  "        button:active \x7b",
  "            background-color: #3d8b40;",
  "        \x7d",
  "        .speed-control \x7b",
  "            display: flex;",
  "            align-items: center;",
  "            gap: 10px;",
  "        \x7d",
  "        .speed-btn \x7b",
  "            padding: 8px 15px;",
  "            font-size: 14px;",
  "            background-color: #2196F3;",
  "        \x7d",
  "        .speed-btn:hover \x7b",
  "            background-color: #0b7dda;",
  "        \x7d",
  "        .speed-btn.active \x7b",
  "            background-color: #0b7dda;",
  "            font-weight: bold;",
  "        \x7d",
  "        input[type=\"range\"] \x7b",
  "            flex: 1;",
  "            min-width: 200px;",
  "            height: 6px;",
  "            background: #444;",
  "            border-radius: 3px;",
  "            outline: none;",
  "        \x7d",
  "        input[type=\"range\"]::-webkit-slider-thumb \x7b",
  "            -webkit-appearance: none;",
  "            appearance: none;",
  "            width: 16px;",
  "            height: 16px;",
  "            background: #4CAF50;",
  "            cursor: pointer;",
  "            border-radius: 50%;",
  "        \x7d",
  "        input[type=\"range\"]::-moz-range-thumb \x7b",
  "            width: 16px;",
  "            height: 16px;",
  "            background: #4CAF50;",
  "            cursor: pointer;",
  "            border-radius: 50%;",
  "            border: none;",
  "        \x7d",
  "        .time-display \x7b",
  "            font-family: monospace;",
  "            font-size: 16px;",
  "            min-width: 150px;",
  "        \x7d",
  "        label \x7b",
  "            font-weight: bold;",
  "            min-width: 80px;",
  "        \x7d",
  "    </style>",
  "</head>",
  "<body>",
  "    <div class=\"container\">",
  "        <h1>2D FFT Video Analysis</h1>",
  "",
  "        <div class=\"controls\">",
  "            <div class=\"control-group\">",
  "                <button id=\"playPauseBtn\" onclick=\"togglePlayPause()\">▶ Play</button>",
  "                <button onclick=\"stepBackward()\">⏮ -1 Frame</button>",
  "                <button onclick=\"stepForward()\">⏭ +1 Frame</button>",
  "                <div class=\"time-display\">",
  "                    <span id=\"currentTime\">0:00.00</span> / <span id=\"duration\">0:00.00</span>",
  "                </div>",
  "            </div>",
  "",
  "            <div class=\"control-group\">",
  "                <label>Progress:</label>",
  "                <input type=\"range\" id=\"seekBar\" value=\"0\" min=\"0\" max=\"100\" step=\"0.1\" oninput=\"seek()\">",
  "            </div>",
  "",
  "            <div class=\"control-group\">",
  "                <label>Speed:</label>",
  "                <div class=\"speed-control\">",
  "                    <button class=\"speed-btn\" onclick=\"setSpeed(0.25)\">0.25x</button>",
  "                    <button class=\"speed-btn\" onclick=\"setSpeed(0.5)\">0.5x</button>",
  "                    <button class=\"speed-btn active\" onclick=\"setSpeed(1)\">1x</button>",
  "                    <button class=\"speed-btn\" onclick=\"setSpeed(1.5)\">1.5x</button>",
  "                    <button class=\"speed-btn\" onclick=\"setSpeed(2)\">2x</button>",
  "                </div>",
  "            </div>",
  "        </div>",
  "",
  "        <div class=\"video-container\">",
  "            <div class=\"video-wrapper\">",
  "                <h2>Original Video (Grayscale)</h2>",
  "                <video id=\"video1\" src=\"INPUT_VIDEO\"></video>",
  "            </div>",
  "            <div class=\"video-wrapper\">",
  "                <h2>2D FFT (Log Magnitude Spectrum)</h2>",
  "                <video id=\"video2\" src=\"OUTPUT_VIDEO\"></video>",
  "            </div>",
  "        </div>",
  "    </div>",
  "",
  "    <script>",
  "        const video1 = document.getElementById(\x27video1\x27);",
  "        const video2 = document.getElementById(\x27video2\x27);",
  "        const playPauseBtn = document.getElementById(\x27playPauseBtn\x27);",
  "        const seekBar = document.getElementById(\x27seekBar\x27);",
  "        const currentTimeDisplay = document.getElementById(\x27currentTime\x27);",
  "        const durationDisplay = document.getElementById(\x27duration\x27);",
  "",
  "        let isSeeking = false;",
  "",
  "        // Synchronize videos",
  "        function syncVideos(source) \x7b",
  "            if (!isSeeking) \x7b",
  "                const target = source === video1 ? video2 : video1;",
  "                if (Math.abs(source.currentTime - target.currentTime) > 0.05) \x7b",
  "                    target.currentTime = source.currentTime;",
  "                \x7d",
  "            \x7d",
  "        \x7d",
  "",
  "        video1.addEventListener(\x27timeupdate\x27, () => \x7b",
  "            syncVideos(video1);",
  "            updateProgress();",
  "        \x7d);",
  "",
  "        video2.addEventListener(\x27timeupdate\x27, () => \x7b",
  "            syncVideos(video2);",
  "        \x7d);",
  "",
  "        // Play/Pause",
  "        function togglePlayPause() \x7b",
  "            if (video1.paused) \x7b",
  "                video1.play();",
  "                video2.play();",
  "                playPauseBtn.textContent = \x27⏸ Pause\x27;",
  "            \x7d else \x7b",
  "                video1.pause();",
  "                video2.pause();",
  "                playPauseBtn.textContent = \x27▶ Play\x27;",
  "            \x7d",
  "        \x7d",
  "",
  "        // Seek",
  "        function seek() \x7b",
  "            isSeeking = true;",
  "            const time = (seekBar.value / 100) * video1.duration;",
  "            video1.currentTime = time;",
  "            video2.currentTime = time;",
  "            setTimeout(() => \x7b isSeeking = false; \x7d, 100);",
  "        \x7d",
  "",
  "        // Update progress bar and time display",
  "        function updateProgress() \x7b",
  "            if (!isSeeking && video1.duration) \x7b",
  "                seekBar.value = (video1.currentTime / video1.duration) * 100;",
  "                currentTimeDisplay.textContent = formatTime(video1.currentTime);",
  "            \x7d",
  "        \x7d",
  "",
  "        // Set duration when metadata is loaded",
  "        video1.addEventListener(\x27loadedmetadata\x27, () => \x7b",
  "            durationDisplay.textContent = formatTime(video1.duration);",
  "        \x7d);",
  "",
  "        // Format time as M:SS.ss",
  "        function formatTime(seconds) \x7b",
  "            const mins = Math.floor(seconds / 60);",
  "            const secs = (seconds % 60).toFixed(2);",
  "            return \x60$\x7bmins\x7d:$\x7bsecs.padStart(5, \x270\x27)\x7d\x60;",
  "        \x7d",
  "",
  "        // Speed control",
  "        function setSpeed(speed) \x7b",
  "            video1.playbackRate = speed;",
  "            video2.playbackRate = speed;",
  "",
  "            // Update active button",
  "            document.querySelectorAll(\x27.speed-btn\x27).forEach(btn => \x7b",
  "                btn.classList.remove(\x27active\x27);",
  "            \x7d);",
  "            event.target.classList.add(\x27active\x27);",
  "        \x7d",
  "",
  "        // Frame stepping",
  "        function stepForward() \x7b",
  "            const wasPlaying = !video1.paused;",
  "            video1.pause();",
  "            video2.pause();",
  "            playPauseBtn.textContent = \x27▶ Play\x27;",
  "",
  "            // Step forward by 1/fps seconds (approximate)",
  "            const fps = 30; // Approximate, adjust if needed",
  "            video1.currentTime = Math.min(video1.currentTime + 1/fps, video1.duration);",
  "            video2.currentTime = video1.currentTime;",
  "        \x7d",
  "",
  "        function stepBackward() \x7b",
  "            const wasPlaying = !video1.paused;",
  "            video1.pause();",
  "            video2.pause();",
  "            playPauseBtn.textContent = \x27▶ Play\x27;",
  "",
  "            // Step backward by 1/fps seconds (approximate)",
  "            const fps = 30; // Approximate, adjust if needed",
  "            video1.currentTime = Math.max(video1.currentTime - 1/fps, 0);",
  "            video2.currentTime = video1.currentTime;",
  "        \x7d",
  "",
  "        // Keyboard shortcuts",
  "        document.addEventListener(\x27keydown\x27, (e) => \x7b",
  "            switch(e.key) \x7b",
  "                case \x27 \x27:",
  "                    e.preventDefault();",
  "                    togglePlayPause();",
  "                    break;",
  "                case \x27ArrowRight\x27:",
  "                    stepForward();",
  "                    break;",
  "                case \x27ArrowLeft\x27:",
  "                    stepBackward();",
  "                    break;",
  "            \x7d",
  "        \x7d);",
  "",
  "        // Sync play/pause state",
  "        video1.addEventListener(\x27play\x27, () => \x7b video2.play(); \x7d);",
  "        video1.addEventListener(\x27pause\x27, () => \x7b video2.pause(); \x7d);",
  "        video2.addEventListener(\x27play\x27, () => \x7b video1.play(); \x7d);",
  "        video2.addEventListener(\x27pause\x27, () => \x7b video1.pause(); \x7d);",
  "    </script>",
  "</body>",
  "</html>"
  ]

/-- The HTML template of `generate_html`: its lines joined by newlines
(identical to the single template literal of the source; the line-level
form lets proofs proceed line by line). -/
def html_template : String :=
  String.mk (intercalateChar (Char.ofNat 10) (html_template_lines.map String.toList))

/-- Embedding of `generate_html` (the string it writes to the HTML file): the
file-name components of both video paths are substituted for the
`INPUT_VIDEO` and `OUTPUT_VIDEO` placeholders of the template. -/
def generate_html (input_video output_video : String) : String :=
  let input_name := pathName input_video
  let output_name := pathName output_video
  let html_content := html_template
  let html_content := stringReplace html_content "INPUT_VIDEO" input_name
  let html_content := stringReplace html_content "OUTPUT_VIDEO" output_name
  html_content

/-- Two-dimensional discrete Fourier transform, the function computed by
`np.fft.fft2`: `X k l = Σ m, Σ n, x m n · exp(-2πi(km/H + ln/W))`. -/
noncomputable def dft2 (H W : ℕ) (f : Fin H → Fin W → ℂ) : Fin H → Fin W → ℂ :=
  fun k l => ∑ m, ∑ n, f m n *
    Complex.exp (-(2 * (Real.pi : ℂ) * Complex.I) *
      ((k.val : ℂ) * (m.val : ℂ) / (H : ℂ) + (l.val : ℂ) * (n.val : ℂ) / (W : ℂ)))

/-- Index map of `np.fft.fftshift` on one axis of length `n`: a cyclic roll by
`n / 2`, so entry `i` of the output is entry `i - n/2 (mod n)` of the input. -/
def shiftIdx {n : ℕ} (i : Fin n) : Fin n :=
  i - ⟨n / 2, Nat.div_lt_self i.pos one_lt_two⟩

/-- Embedding of `np.fft.fftshift` on a 2-D grid: both axes are rolled by half
their length, moving the zero-frequency entry to the centre. -/
def fftshift {α : Type} {H W : ℕ} (g : Fin H → Fin W → α) : Fin H → Fin W → α :=
  fun k l => g (shiftIdx k) (shiftIdx l)

/-- Minimum entry of a real grid, as computed by `cv::minMaxIdx`; defaults to
`0` on an empty grid (unreachable for decoded frames). -/
noncomputable def gridMin {H W : ℕ} (g : Fin H → Fin W → ℝ) : ℝ :=
  if h : 0 < H ∧ 0 < W then
    Finset.univ.inf' (Finset.univ_nonempty_iff.mpr ⟨(⟨0, h.1⟩, ⟨0, h.2⟩)⟩)
      (fun p : Fin H × Fin W => g p.1 p.2)
  else 0

/-- Maximum entry of a real grid, as computed by `cv::minMaxIdx`; defaults to
`0` on an empty grid. -/
noncomputable def gridMax {H W : ℕ} (g : Fin H → Fin W → ℝ) : ℝ :=
  if h : 0 < H ∧ 0 < W then
    Finset.univ.sup' (Finset.univ_nonempty_iff.mpr ⟨(⟨0, h.1⟩, ⟨0, h.2⟩)⟩)
      (fun p : Fin H × Fin W => g p.1 p.2)
  else 0

/-- The `DBL_EPSILON` threshold (2⁻⁵²) of OpenCV's min-max normalization. -/
noncomputable def DBL_EPSILON : ℝ := ((2 : ℝ) ^ (52 : ℕ))⁻¹

/-- Embedding of `cv2.normalize(src, None, 0, 255, cv2.NORM_MINMAX)` on a real
grid, following the OpenCV implementation: with `smin`/`smax` the extrema of
`src`, `scale = (255 - 0)·(smax - smin)⁻¹` when the spread exceeds
`DBL_EPSILON` and `0` otherwise, `shift = 0 - smin·scale`, and every entry
maps to `x·scale + shift`. -/
noncomputable def cvNormalizeMinMax {H W : ℕ} (src : Fin H → Fin W → ℝ) :
    Fin H → Fin W → ℝ :=
  let smin := gridMin src
  let smax := gridMax src
  let scale := (255 - 0) * (if DBL_EPSILON < smax - smin then (smax - smin)⁻¹ else 0)
  let dshift := 0 - smin * scale
  fun k l => src k l * scale + dshift

/-- Embedding of numpy `.astype(np.uint8)` on a float: C-style conversion,
truncation toward zero followed by reduction modulo 256. -/
noncomputable def astypeUInt8 (x : ℝ) : ℕ :=
  ((if 0 ≤ x then ⌊x⌋ else ⌈x⌉) % 256).toNat

/-- Embedding of `process_frame_fft` (source lines 15–31): 2-D FFT of the
grayscale frame, shift of the zero frequency to the centre, magnitude,
`log1p`, min-max normalization onto [0, 255], conversion to `uint8`. -/
noncomputable def process_frame_fft {H W : ℕ} (frame : Fin H → Fin W → ℕ) :
    Fin H → Fin W → ℕ :=
  let fft := dft2 H W fun m n => ((frame m n : ℕ) : ℂ)
  let fft_shifted := fftshift fft
  let magnitude := fun k l => Complex.abs (fft_shifted k l)
  let log_magnitude := fun k l => Real.log (1 + magnitude k l)
  let normalized := cvNormalizeMinMax log_magnitude
  fun k l => astypeUInt8 (normalized k l)

/-- The intermediate `log_magnitude` grid of `process_frame_fft`, named so
that statements can refer to it. -/
noncomputable def log_magnitude_of {H W : ℕ} (frame : Fin H → Fin W → ℕ) :
    Fin H → Fin W → ℝ :=
  fun k l =>
    Real.log (1 + Complex.abs (fftshift (dft2 H W fun m n => ((frame m n : ℕ) : ℂ)) k l))

/-- Embedding of `cv2.cvtColor(·, cv2.COLOR_BGR2GRAY)` on an 8-bit BGR pixel
`(b, g, r)`: OpenCV's fixed-point luma weights
`(B, G, R) = (1868, 9617, 4899) / 2¹⁴` with rounding. -/
def cvtColor_BGR2GRAY (p : ℕ × ℕ × ℕ) : ℕ :=
  (1868 * p.1 + 9617 * p.2.1 + 4899 * p.2.2 + 8192) / 16384

/-- Embedding of `cv2.cvtColor(·, cv2.COLOR_GRAY2BGR)`: channel replication. -/
def cvtColor_GRAY2BGR (v : ℕ) : ℕ × ℕ × ℕ := (v, v, v)

/-- A decoded video: fixed dimensions, frame rate, and the list of BGR
frames in decode order. -/
structure Video where
  width : ℕ
  height : ℕ
  fps : ℚ
  frames : List (Fin height → Fin width → ℕ × ℕ × ℕ)

/-- Per-frame work of the `process_video` loop (source lines 62–72):
grayscale conversion, `process_frame_fft`, replication back to BGR. -/
noncomputable def processedFrame {H W : ℕ} (frame : Fin H → Fin W → ℕ × ℕ × ℕ) :
    Fin H → Fin W → ℕ × ℕ × ℕ :=
  let gray := fun k l => cvtColor_BGR2GRAY (frame k l)
  let fft_frame := process_frame_fft gray
  fun k l => cvtColor_GRAY2BGR (fft_frame k l)

/-- Functional embedding of `process_video` (source lines 34–82): the video
writer is created with the input's width, height and frame rate, and one
processed frame is appended per decoded frame, in order. -/
noncomputable def process_video (v : Video) : Video :=
  { width := v.width, height := v.height, fps := v.fps,
    frames := v.frames.map processedFrame }

/-- Composition of per-frame steps exactly as the specification enumerates
them (luma-weighted grayscale, 2-D discrete frequency transform, centre
shift, magnitude, log(1+x) compression, linear [0, 255] normalization,
3-channel replication), to be compared with the code's per-frame work. -/
noncomputable def spec_frame_pipeline {H W : ℕ} (frame : Fin H → Fin W → ℕ × ℕ × ℕ) :
    Fin H → Fin W → ℕ × ℕ × ℕ :=
  let gray := fun k l => cvtColor_BGR2GRAY (frame k l)
  let transformed := dft2 H W fun m n => ((gray m n : ℕ) : ℂ)
  let centred := fftshift transformed
  let mag := fun k l => Complex.abs (centred k l)
  let compressed := fun k l => Real.log (1 + mag k l)
  let normalized := cvNormalizeMinMax compressed
  fun k l => cvtColor_GRAY2BGR (astypeUInt8 (normalized k l))

/-- Centre position of an axis after `fftshift`: index `n / 2`. -/
def centerIdx (n : ℕ) (h : 0 < n) : Fin n :=
  ⟨n / 2, Nat.div_lt_self h one_lt_two⟩

/-- Observable events of one `process_video` run, for reasoning about
resource handling. -/
inductive Ev where
  | openCap
  | openWriter
  | readFrame (i : ℕ)
  | writeFrame (i : ℕ)
  | raised
  | releaseCap
  | releaseWriter
deriving DecidableEq

/-- Trace of the frame loop of `process_video` starting at frame `i` with `r`
frames remaining; `failAt = some j` injects an exception while processing or
writing frame `j`; the boolean component records normal completion. -/
def frameLoop (failAt : Option ℕ) : ℕ → ℕ → List Ev × Bool
  | _, 0 => ([], true)
  | i, r + 1 =>
    if failAt = some i then ([Ev.readFrame i, Ev.raised], false)
    else
      let rest := frameLoop failAt (i + 1) r
      (Ev.readFrame i :: Ev.writeFrame i :: rest.1, rest.2)

/-- Event trace of `process_video` on an `n`-frame video: both handles are
acquired up front, the frame loop runs, and the two `release` calls (source
lines 78–79) execute only after normal loop completion — an exception
raised in the loop propagates immediately. -/
def process_video_trace (n : ℕ) (failAt : Option ℕ) : List Ev :=
  let loopRun := frameLoop failAt 0 n
  Ev.openCap :: Ev.openWriter ::
    (loopRun.1 ++ if loopRun.2 then [Ev.releaseCap, Ev.releaseWriter] else [])

/-- Environment of one `main` run: which paths exist, how many frames a path
decodes to (`none` meaning the decoder cannot open it), an optional injected
exception in the frame loop, and whether the HTML path is writable. -/
structure Env where
  fileExists : String → Bool
  decodeFrames : String → Option ℕ
  frameFail : Option ℕ
  htmlWritable : Bool

/-- Observable outcome of a `main` run. -/
structure RunResult where
  exitCode : ℕ
  printed : List String
  openedDecoder : Bool
  tracePrinted : Bool
  videoTouched : Bool
  htmlWritten : Option String

/-- Whether the `try` block of `main` raises: decoder open failure or an
exception inside the frame loop. -/
def pipelineRaises (env : Env) (input : String) : Bool :=
  match env.decodeFrames input with
  | none => true
  | some n =>
    match env.frameFail with
    | some i => decide (i < n)
    | none => false

/-- Tail of `main` after the frame pipeline completed: HTML generation and
the completion prints, or the caught exception from an unwritable HTML
path. -/
def mainRunTail (env : Env) (input output html : String) : RunResult :=
  if env.htmlWritable then
    { exitCode := 0,
      printed := ["Processing complete! Output saved to: " ++ output,
                  "HTML visualization generated: " ++ html, "\n✓ Complete!"],
      openedDecoder := true, tracePrinted := false, videoTouched := true,
      htmlWritten := some (generate_html input output) }
  else
    { exitCode := 1,
      printed := ["Error during processing: unwritable html path"],
      openedDecoder := true, tracePrinted := true, videoTouched := true,
      htmlWritten := none }

/-- Embedding of `main` (source lines 410–458, argument parsing already
done): if the input path does not exist, print the error and return 1
without touching anything else; otherwise run the pipeline and the HTML
generator inside the `try` block, catching any exception at the top level,
printing a traceback and returning 1. -/
def mainRun (env : Env) (input output html : String) : RunResult :=
  if env.fileExists input = false then
    { exitCode := 1, printed := ["Error: Input file not found: " ++ input],
      openedDecoder := false, tracePrinted := false, videoTouched := false,
      htmlWritten := none }
  else
    match env.decodeFrames input with
    | none =>
        { exitCode := 1,
          printed := ["Error during processing: Could not open video: " ++ input],
          openedDecoder := true, tracePrinted := true, videoTouched := false,
          htmlWritten := none }
    | some n =>
        match env.frameFail with
        | some i =>
            if i < n then
              { exitCode := 1,
                printed := ["Error during processing: frame loop exception"],
                openedDecoder := true, tracePrinted := true, videoTouched := true,
                htmlWritten := none }
            else mainRunTail env input output html
        | none => mainRunTail env input output html

/-- Lines of the template after substituting `clip.mp4` and `clip_fft.mp4`
for the two placeholders (a proof artifact: the expected value of the
substitution, checked against the embedding by computation). -/
def substituted_lines : List String := [
  "<!DOCTYPE html>",
  "<html lang=\"en\">",
  "<head>",
  "    <meta charset=\"UTF-8\">",
  "    <meta name=\"viewport\" content=\"width=device-width, initial-scale=1.0\">",
  "    <title>2D FFT Video Comparison</title>",
  "    <style>",
  "        body \x7b",
  "            margin: 0;",
  "            padding: 20px;",
  "            background-color: #1a1a1a;",
  "            color: #fff;",
  "            font-family: Arial, sans-serif;",
  "        \x7d",
  "        .container \x7b",
  "            max-width: 1800px;",
  "            margin: 0 auto;",
  "        \x7d",
  "        h1 \x7b",
  "            text-align: center;",
  "            margin-bottom: 30px;",
  "        \x7d",
  "        .video-container \x7b",
  "            display: flex;",
  "            gap: 20px;",
  "            justify-content: center;",
  "            margin-bottom: 30px;",
  "            flex-wrap: wrap;",
  "        \x7d",
  "        .video-wrapper \x7b",
  "            flex: 1;",
  "            min-width: 400px;",
  "            max-width: 800px;",
  "        \x7d",
  "        .video-wrapper h2 \x7b",
  "            text-align: center;",
  "            margin-bottom: 10px;",
  "            font-size: 18px;",
  "        \x7d",
  "        video \x7b",
  "            width: 100%;",
  "            height: auto;",
  "            background-color: #000;",
  "            display: block;",
  "        \x7d",
  "        .controls \x7b",
  "            background-color: #2a2a2a;",
  "            padding: 20px;",
  "            border-radius: 8px;",
  "            margin-bottom: 20px;",
  "        \x7d",
  "        .control-group \x7b",
  "            display: flex;",
  "            align-items: center;",
  "            gap: 15px;",
  "            margin-bottom: 15px;",
  "            flex-wrap: wrap;",
  "        \x7d",
  "        .control-group:last-child \x7b",
  "            margin-bottom: 0;",
  "        \x7d",
  "        button \x7b",
  "            padding: 10px 20px;",
  "            font-size: 16px;",
  "            background-color: #4CAF50;",
  "            color: white;",
  "            border: none;",
  "            border-radius: 4px;",
  "            cursor: pointer;",
  "            transition: background-color 0.3s;",
  "        \x7d",
  "        button:hover \x7b",
  "            background-color: #45a049;",
  "        \x7d",
  "        button:active \x7b",
  "            background-color: #3d8b40;",
  "        \x7d",
  "        .speed-control \x7b",
  "            display: flex;",
  "            align-items: center;",
  "            gap: 10px;",
  "        \x7d",
  "        .speed-btn \x7b",
  "            padding: 8px 15px;",
  "            font-size: 14px;",
  "            background-color: #2196F3;",
  "        \x7d",
  "        .speed-btn:hover \x7b",
  "            background-color: #0b7dda;",
  "        \x7d",
  "        .speed-btn.active \x7b",
  "            background-color: #0b7dda;",
  "            font-weight: bold;",
  "        \x7d",
  "        input[type=\"range\"] \x7b",
  "            flex: 1;",
  "            min-width: 200px;",
  "            height: 6px;",
  "            background: #444;",
  "            border-radius: 3px;",
  "            outline: none;",
  "        \x7d",
  "        input[type=\"range\"]::-webkit-slider-thumb \x7b",
  "            -webkit-appearance: none;",
  "            appearance: none;",
  "            width: 16px;",
  "            height: 16px;",
  "            background: #4CAF50;",
  "            cursor: pointer;",
  "            border-radius: 50%;",
  "        \x7d",
  "        input[type=\"range\"]::-moz-range-thumb \x7b",
  "            width: 16px;",
  "            height: 16px;",
  "            background: #4CAF50;",
  "            cursor: pointer;",
  "            border-radius: 50%;",
  "            border: none;",
  "        \x7d",
  "        .time-display \x7b",
  "            font-family: monospace;",
  "            font-size: 16px;",
  "            min-width: 150px;",
  "        \x7d",
  "        label \x7b",
  "            font-weight: bold;",
  "            min-width: 80px;",
  "        \x7d",
  "    </style>",
  "</head>",
  "<body>",
  "    <div class=\"container\">",
  "        <h1>2D FFT Video Analysis</h1>",
  "",
  "        <div class=\"controls\">",
  "            <div class=\"control-group\">",
  "                <button id=\"playPauseBtn\" onclick=\"togglePlayPause()\">▶ Play</button>",
  "                <button onclick=\"stepBackward()\">⏮ -1 Frame</button>",
  "                <button onclick=\"stepForward()\">⏭ +1 Frame</button>",
  "                <div class=\"time-display\">",
  "                    <span id=\"currentTime\">0:00.00</span> / <span id=\"duration\">0:00.00</span>",
  "                </div>",
  "            </div>",
  "",
  "            <div class=\"control-group\">",
  "                <label>Progress:</label>",
  "                <input type=\"range\" id=\"seekBar\" value=\"0\" min=\"0\" max=\"100\" step=\"0.1\" oninput=\"seek()\">",
  "            </div>",
  "",
  "            <div class=\"control-group\">",
  "                <label>Speed:</label>",
  "                <div class=\"speed-control\">",
  "                    <button class=\"speed-btn\" onclick=\"setSpeed(0.25)\">0.25x</button>",
  "                    <button class=\"speed-btn\" onclick=\"setSpeed(0.5)\">0.5x</button>",
  "                    <button class=\"speed-btn active\" onclick=\"setSpeed(1)\">1x</button>",
  "                    <button class=\"speed-btn\" onclick=\"setSpeed(1.5)\">1.5x</button>",
  "                    <button class=\"speed-btn\" onclick=\"setSpeed(2)\">2x</button>",
  "                </div>",
  "            </div>",
  "        </div>",
  "",
  "        <div class=\"video-container\">",
  "            <div class=\"video-wrapper\">",
  "                <h2>Original Video (Grayscale)</h2>",
  "                <video id=\"video1\" src=\"clip.mp4\"></video>",
  "            </div>",
  "            <div class=\"video-wrapper\">",
  "                <h2>2D FFT (Log Magnitude Spectrum)</h2>",
  "                <video id=\"video2\" src=\"clip_fft.mp4\"></video>",
  "            </div>",
  "        </div>",
  "    </div>",
  "",
  "    <script>",
  "        const video1 = document.getElementById(\x27video1\x27);",
  "        const video2 = document.getElementById(\x27video2\x27);",
  "        const playPauseBtn = document.getElementById(\x27playPauseBtn\x27);",
  "        const seekBar = document.getElementById(\x27seekBar\x27);",
  "        const currentTimeDisplay = document.getElementById(\x27currentTime\x27);",
  "        const durationDisplay = document.getElementById(\x27duration\x27);",
  "",
  "        let isSeeking = false;",
  "",
  "        // Synchronize videos",
  "        function syncVideos(source) \x7b",
  "            if (!isSeeking) \x7b",
  "                const target = source === video1 ? video2 : video1;",
  "                if (Math.abs(source.currentTime - target.currentTime) > 0.05) \x7b",
  "                    target.currentTime = source.currentTime;",
  "                \x7d",
  "            \x7d",
  "        \x7d",
  "",
  "        video1.addEventListener(\x27timeupdate\x27, () => \x7b",
  "            syncVideos(video1);",
  "            updateProgress();",
  "        \x7d);",
  "",
  "        video2.addEventListener(\x27timeupdate\x27, () => \x7b",
  "            syncVideos(video2);",
  "        \x7d);",
  "",
  "        // Play/Pause",
  "        function togglePlayPause() \x7b",
  "            if (video1.paused) \x7b",
  "                video1.play();",
  "                video2.play();",
  "                playPauseBtn.textContent = \x27⏸ Pause\x27;",
  "            \x7d else \x7b",
  "                video1.pause();",
  "                video2.pause();",
  "                playPauseBtn.textContent = \x27▶ Play\x27;",
  "            \x7d",
  "        \x7d",
  "",
  "        // Seek",
  "        function seek() \x7b",
  "            isSeeking = true;",
  "            const time = (seekBar.value / 100) * video1.duration;",
  "            video1.currentTime = time;",
  "            video2.currentTime = time;",
  "            setTimeout(() => \x7b isSeeking = false; \x7d, 100);",
  "        \x7d",
  "",
  "        // Update progress bar and time display",
  "        function updateProgress() \x7b",
  "            if (!isSeeking && video1.duration) \x7b",
  "                seekBar.value = (video1.currentTime / video1.duration) * 100;",
  "                currentTimeDisplay.textContent = formatTime(video1.currentTime);",
  "            \x7d",
  "        \x7d",
  "",
  "        // Set duration when metadata is loaded",
  "        video1.addEventListener(\x27loadedmetadata\x27, () => \x7b",
  "            durationDisplay.textContent = formatTime(video1.duration);",
  "        \x7d);",
  "",
  "        // Format time as M:SS.ss",
  "        function formatTime(seconds) \x7b",
  "            const mins = Math.floor(seconds / 60);",
  "            const secs = (seconds % 60).toFixed(2);",
  "            return \x60$\x7bmins\x7d:$\x7bsecs.padStart(5, \x270\x27)\x7d\x60;",
  "        \x7d",
  "",
  "        // Speed control",
  "        function setSpeed(speed) \x7b",
  "            video1.playbackRate = speed;",
  "            video2.playbackRate = speed;",
  "",
  "            // Update active button",
  "            document.querySelectorAll(\x27.speed-btn\x27).forEach(btn => \x7b",
  "                btn.classList.remove(\x27active\x27);",
  "            \x7d);",
  "            event.target.classList.add(\x27active\x27);",
  "        \x7d",
  "",
  "        // Frame stepping",
  "        function stepForward() \x7b",
  "            const wasPlaying = !video1.paused;",
  "            video1.pause();",
  "            video2.pause();",
  "            playPauseBtn.textContent = \x27▶ Play\x27;",
  "",
  "            // Step forward by 1/fps seconds (approximate)",
  "            const fps = 30; // Approximate, adjust if needed",
  "            video1.currentTime = Math.min(video1.currentTime + 1/fps, video1.duration);",
  "            video2.currentTime = video1.currentTime;",
  "        \x7d",
  "",
  "        function stepBackward() \x7b",
  "            const wasPlaying = !video1.paused;",
  "            video1.pause();",
  "            video2.pause();",
  "            playPauseBtn.textContent = \x27▶ Play\x27;",
  "",
  "            // Step backward by 1/fps seconds (approximate)",
  "            const fps = 30; // Approximate, adjust if needed",
  "            video1.currentTime = Math.max(video1.currentTime - 1/fps, 0);",
  "            video2.currentTime = video1.currentTime;",
  "        \x7d",
  "",
  "        // Keyboard shortcuts",
  "        document.addEventListener(\x27keydown\x27, (e) => \x7b",
  "            switch(e.key) \x7b",
  "                case \x27 \x27:",
  "                    e.preventDefault();",
  "                    togglePlayPause();",
  "                    break;",
  "                case \x27ArrowRight\x27:",
  "                    stepForward();",
  "                    break;",
  "                case \x27ArrowLeft\x27:",
  "                    stepBackward();",
  "                    break;",
  "            \x7d",
  "        \x7d);",
  "",
  "        // Sync play/pause state",
  "        video1.addEventListener(\x27play\x27, () => \x7b video2.play(); \x7d);",
  "        video1.addEventListener(\x27pause\x27, () => \x7b video2.pause(); \x7d);",
  "        video2.addEventListener(\x27play\x27, () => \x7b video1.play(); \x7d);",
  "        video2.addEventListener(\x27pause\x27, () => \x7b video1.pause(); \x7d);",
  "    </script>",
  "</body>",
  "</html>"
  ]

/-! ### String-layer lemmas: how `replaceAll` and `countOccur` act on a
separator-joined list when the pattern avoids the separator. -/

/-- Fuel irrelevance for `replaceAllFuel`: every fuel at least the length of
the subject computes the same result as fuel exactly that length. -/
theorem replaceAllFuel_eq_of_le (pat rep : List Char) (hpat : pat ≠ []) :
    ∀ (n : ℕ) (s : List Char) (fuel : ℕ), s.length ≤ n → s.length ≤ fuel →
      replaceAllFuel pat rep fuel s = replaceAllL pat rep s := by
  intro n
  induction n with
  | zero =>
    intro s fuel hs _
    have hnil : s = [] := List.length_eq_zero.mp (Nat.le_zero.mp hs)
    subst hnil
    cases fuel <;> rfl
  | succ n ih =>
    intro s fuel hs hf
    match s, hs, hf with
    | [], _, _ => cases fuel <;> rfl
    | c :: rest, hs, hf =>
      obtain ⟨f, rfl⟩ : ∃ f, fuel = f + 1 :=
        ⟨fuel - 1, by simp only [List.length_cons] at hf; omega⟩
      have hp : 1 ≤ pat.length := by
        cases pat with
        | nil => exact absurd rfl hpat
        | cons a as => simp
      have hs1 : rest.length ≤ n := by simpa using hs
      have hf1 : rest.length ≤ f := by simpa using hf
      show replaceAllFuel pat rep (f + 1) (c :: rest) = replaceAllL pat rep (c :: rest)
      rw [replaceAllL]
      simp only [List.length_cons, replaceAllFuel]
      by_cases h : pat.isPrefixOf (c :: rest)
      · simp only [h, if_pos]
        congr 1
        have hd : (List.drop pat.length (c :: rest)).length = rest.length + 1 - pat.length := by
          simp
        rw [ih (List.drop pat.length (c :: rest)) f (by omega) (by omega),
          ih (List.drop pat.length (c :: rest)) rest.length (by omega) (by omega)]
      · simp only [h, if_neg, Bool.false_eq_true, not_false_eq_true]
        congr 1
        rw [ih rest f hs1 hf1, ih rest rest.length hs1 le_rfl]

/-- Fuel irrelevance for `countOccurFuel`. -/
theorem countOccurFuel_eq_of_le (pat : List Char) (hpat : pat ≠ []) :
    ∀ (n : ℕ) (s : List Char) (fuel : ℕ), s.length ≤ n → s.length ≤ fuel →
      countOccurFuel pat fuel s = countOccurL pat s := by
  intro n
  induction n with
  | zero =>
    intro s fuel hs _
    have hnil : s = [] := List.length_eq_zero.mp (Nat.le_zero.mp hs)
    subst hnil
    cases fuel <;> rfl
  | succ n ih =>
    intro s fuel hs hf
    match s, hs, hf with
    | [], _, _ => cases fuel <;> rfl
    | c :: rest, hs, hf =>
      obtain ⟨f, rfl⟩ : ∃ f, fuel = f + 1 :=
        ⟨fuel - 1, by simp only [List.length_cons] at hf; omega⟩
      have hp : 1 ≤ pat.length := by
        cases pat with
        | nil => exact absurd rfl hpat
        | cons a as => simp
      have hs1 : rest.length ≤ n := by simpa using hs
      have hf1 : rest.length ≤ f := by simpa using hf
      show countOccurFuel pat (f + 1) (c :: rest) = countOccurL pat (c :: rest)
      rw [countOccurL]
      simp only [List.length_cons, countOccurFuel]
      by_cases h : pat.isPrefixOf (c :: rest)
      · simp only [h, if_pos]
        congr 1
        have hd : (List.drop pat.length (c :: rest)).length = rest.length + 1 - pat.length := by
          simp
        rw [ih (List.drop pat.length (c :: rest)) f (by omega) (by omega),
          ih (List.drop pat.length (c :: rest)) rest.length (by omega) (by omega)]
      · simp only [h, if_neg, Bool.false_eq_true, not_false_eq_true]
        rw [ih rest f hs1 hf1, ih rest rest.length hs1 le_rfl]

/-- A pattern avoiding `sep` that is a prefix of `X ++ sep :: Y` fits inside
`X`. -/
theorem length_le_of_prefix_append_cons {pat X Y : List Char} {sep : Char}
    (hsep : sep ∉ pat) (h : pat <+: X ++ sep :: Y) : pat.length ≤ X.length := by
  by_contra hlt
  push_neg at hlt
  have htake := List.prefix_iff_eq_take.mp h
  apply hsep
  rw [htake, List.take_append_eq_append_take]
  refine List.mem_append.mpr (Or.inr ?_)
  obtain ⟨k, hk⟩ : ∃ k, pat.length - X.length = k + 1 := ⟨pat.length - X.length - 1, by omega⟩
  rw [hk, List.take_succ_cons]
  exact List.mem_cons_self sep _

/-- A prefix of `X ++ Z` no longer than `X` is a prefix of `X`. -/
theorem prefix_of_prefix_append {pat X Z : List Char} (h : pat <+: X ++ Z)
    (hle : pat.length ≤ X.length) : pat <+: X := by
  have htake := List.prefix_iff_eq_take.mp h
  rw [List.take_append_eq_append_take, Nat.sub_eq_zero_of_le hle] at htake
  simp only [List.take_zero, List.append_nil] at htake
  rw [htake]
  exact List.take_prefix _ _

/-- Replacement makes one plain step over a separator the pattern avoids. -/
theorem replaceAllL_cons_sep (pat rep : List Char) (hpat : pat ≠ []) (sep : Char)
    (hsep : sep ∉ pat) (Y : List Char) :
    replaceAllL pat rep (sep :: Y) = sep :: replaceAllL pat rep Y := by
  have hno : pat.isPrefixOf (sep :: Y) = false := by
    rw [Bool.eq_false_iff]
    intro hcontra
    have hpfx := List.isPrefixOf_iff_prefix.mp hcontra
    match pat, hpat, hpfx with
    | p :: pt, _, hpfx =>
      have := (List.cons_prefix_cons.mp hpfx).1
      exact hsep (this ▸ List.mem_cons_self p pt)
  simp only [replaceAllL, List.length_cons, replaceAllFuel, hno, Bool.false_eq_true,
    if_false]

/-- Counting makes one plain step over a separator the pattern avoids. -/
theorem countOccurL_cons_sep (pat : List Char) (hpat : pat ≠ []) (sep : Char)
    (hsep : sep ∉ pat) (Y : List Char) :
    countOccurL pat (sep :: Y) = countOccurL pat Y := by
  have hno : pat.isPrefixOf (sep :: Y) = false := by
    rw [Bool.eq_false_iff]
    intro hcontra
    have hpfx := List.isPrefixOf_iff_prefix.mp hcontra
    match pat, hpat, hpfx with
    | p :: pt, _, hpfx =>
      have := (List.cons_prefix_cons.mp hpfx).1
      exact hsep (this ▸ List.mem_cons_self p pt)
  simp only [countOccurL, List.length_cons, countOccurFuel, hno, Bool.false_eq_true,
    if_false]

/-- Unfolding of `replaceAllL` on a cons cell when the pattern matches. -/
theorem replaceAllL_cons_match {pat rep : List Char} {c : Char} {rest : List Char}
    (h : pat.isPrefixOf (c :: rest) = true) :
    replaceAllL pat rep (c :: rest)
      = rep ++ replaceAllFuel pat rep rest.length (List.drop pat.length (c :: rest)) := by
  simp only [replaceAllL, List.length_cons, replaceAllFuel, h, if_true]

/-- Unfolding of `replaceAllL` on a cons cell when the pattern does not
match. -/
theorem replaceAllL_cons_nomatch {pat rep : List Char} {c : Char} {rest : List Char}
    (h : pat.isPrefixOf (c :: rest) = false) :
    replaceAllL pat rep (c :: rest) = c :: replaceAllL pat rep rest := by
  simp only [replaceAllL, List.length_cons, replaceAllFuel, h, Bool.false_eq_true, if_false]

/-- Unfolding of `countOccurL` on a cons cell when the pattern matches. -/
theorem countOccurL_cons_match {pat : List Char} {c : Char} {rest : List Char}
    (h : pat.isPrefixOf (c :: rest) = true) :
    countOccurL pat (c :: rest)
      = countOccurFuel pat rest.length (List.drop pat.length (c :: rest)) + 1 := by
  simp only [countOccurL, List.length_cons, countOccurFuel, h, if_true]

/-- Unfolding of `countOccurL` on a cons cell when the pattern does not
match. -/
theorem countOccurL_cons_nomatch {pat : List Char} {c : Char} {rest : List Char}
    (h : pat.isPrefixOf (c :: rest) = false) :
    countOccurL pat (c :: rest) = countOccurL pat rest := by
  simp only [countOccurL, List.length_cons, countOccurFuel, h, Bool.false_eq_true, if_false]

/-- Replacement over `X ++ sep :: Y` splits at a separator the pattern
avoids. -/
theorem replaceAllL_append_cons (pat rep : List Char) (hpat : pat ≠ []) (sep : Char)
    (hsep : sep ∉ pat) :
    ∀ (n : ℕ) (X Y : List Char), X.length ≤ n →
      replaceAllL pat rep (X ++ sep :: Y)
        = replaceAllL pat rep X ++ sep :: replaceAllL pat rep Y := by
  intro n
  induction n with
  | zero =>
    intro X Y hX
    have hnil : X = [] := List.length_eq_zero.mp (Nat.le_zero.mp hX)
    subst hnil
    have hbase := replaceAllL_cons_sep pat rep hpat sep hsep Y
    simpa [replaceAllL, replaceAllFuel] using hbase
  | succ n ih =>
    intro X Y hX
    match X with
    | [] =>
      have hbase := replaceAllL_cons_sep pat rep hpat sep hsep Y
      simpa [replaceAllL, replaceAllFuel] using hbase
    | c :: X' =>
      have hp : 1 ≤ pat.length := List.length_pos.mpr hpat
      have hX'n : X'.length ≤ n := by simpa using hX
      rw [List.cons_append]
      by_cases h : pat.isPrefixOf (c :: (X' ++ sep :: Y)) = true
      · have hpfx : pat <+: (c :: X') ++ sep :: Y := by
          simpa using List.isPrefixOf_iff_prefix.mp h
        have hle : pat.length ≤ (c :: X').length :=
          length_le_of_prefix_append_cons hsep hpfx
        have hpfxX : pat <+: c :: X' := prefix_of_prefix_append hpfx hle
        have hXmatch : pat.isPrefixOf (c :: X') = true := List.isPrefixOf_iff_prefix.mpr hpfxX
        have hdropEq : List.drop pat.length (c :: (X' ++ sep :: Y))
            = List.drop pat.length (c :: X') ++ sep :: Y := by
          have hsplit : c :: (X' ++ sep :: Y) = (c :: X') ++ sep :: Y := rfl
          rw [hsplit, List.drop_append_eq_append_drop, Nat.sub_eq_zero_of_le hle]
          simp
        rw [replaceAllL_cons_match h, hdropEq]
        have lhs2 : replaceAllFuel pat rep ((X' ++ sep :: Y).length)
              (List.drop pat.length (c :: X') ++ sep :: Y)
            = replaceAllL pat rep (List.drop pat.length (c :: X') ++ sep :: Y) := by
          apply replaceAllFuel_eq_of_le pat rep hpat
            ((List.drop pat.length (c :: X') ++ sep :: Y).length) _ _ le_rfl
          simp only [List.length_append, List.length_cons, List.length_drop]
          omega
        rw [lhs2, ih (List.drop pat.length (c :: X')) Y (by
          simp only [List.length_drop, List.length_cons]
          omega)]
        rw [replaceAllL_cons_match hXmatch]
        have rhs2 : replaceAllFuel pat rep X'.length (List.drop pat.length (c :: X'))
            = replaceAllL pat rep (List.drop pat.length (c :: X')) := by
          apply replaceAllFuel_eq_of_le pat rep hpat
            ((List.drop pat.length (c :: X')).length) _ _ le_rfl
          simp only [List.length_drop, List.length_cons]
          omega
        rw [rhs2]
        simp [List.append_assoc]
      · have hno : pat.isPrefixOf (c :: (X' ++ sep :: Y)) = false := Bool.eq_false_iff.mpr h
        have hXno : pat.isPrefixOf (c :: X') = false := by
          rw [Bool.eq_false_iff]
          intro hcontra
          apply h
          apply List.isPrefixOf_iff_prefix.mpr
          have hpX := List.isPrefixOf_iff_prefix.mp hcontra
          have hext : (c :: X') <+: (c :: X') ++ sep :: Y := List.prefix_append _ _
          simpa using hpX.trans hext
        rw [replaceAllL_cons_nomatch hno, ih X' Y hX'n, replaceAllL_cons_nomatch hXno]
        simp

/-- Counting over `X ++ sep :: Y` splits at a separator the pattern avoids. -/
theorem countOccurL_append_cons (pat : List Char) (hpat : pat ≠ []) (sep : Char)
    (hsep : sep ∉ pat) :
    ∀ (n : ℕ) (X Y : List Char), X.length ≤ n →
      countOccurL pat (X ++ sep :: Y) = countOccurL pat X + countOccurL pat Y := by
  intro n
  induction n with
  | zero =>
    intro X Y hX
    have hnil : X = [] := List.length_eq_zero.mp (Nat.le_zero.mp hX)
    subst hnil
    have hbase := countOccurL_cons_sep pat hpat sep hsep Y
    simpa [countOccurL, countOccurFuel] using hbase
  | succ n ih =>
    intro X Y hX
    match X with
    | [] =>
      have hbase := countOccurL_cons_sep pat hpat sep hsep Y
      simpa [countOccurL, countOccurFuel] using hbase
    | c :: X' =>
      have hp : 1 ≤ pat.length := List.length_pos.mpr hpat
      have hX'n : X'.length ≤ n := by simpa using hX
      rw [List.cons_append]
      by_cases h : pat.isPrefixOf (c :: (X' ++ sep :: Y)) = true
      · have hpfx : pat <+: (c :: X') ++ sep :: Y := by
          simpa using List.isPrefixOf_iff_prefix.mp h
        have hle : pat.length ≤ (c :: X').length :=
          length_le_of_prefix_append_cons hsep hpfx
        have hpfxX : pat <+: c :: X' := prefix_of_prefix_append hpfx hle
        have hXmatch : pat.isPrefixOf (c :: X') = true := List.isPrefixOf_iff_prefix.mpr hpfxX
        have hdropEq : List.drop pat.length (c :: (X' ++ sep :: Y))
            = List.drop pat.length (c :: X') ++ sep :: Y := by
          have hsplit : c :: (X' ++ sep :: Y) = (c :: X') ++ sep :: Y := rfl
          rw [hsplit, List.drop_append_eq_append_drop, Nat.sub_eq_zero_of_le hle]
          simp
        rw [countOccurL_cons_match h, hdropEq]
        have lhs2 : countOccurFuel pat ((X' ++ sep :: Y).length)
              (List.drop pat.length (c :: X') ++ sep :: Y)
            = countOccurL pat (List.drop pat.length (c :: X') ++ sep :: Y) := by
          apply countOccurFuel_eq_of_le pat hpat
            ((List.drop pat.length (c :: X') ++ sep :: Y).length) _ _ le_rfl
          simp only [List.length_append, List.length_cons, List.length_drop]
          omega
        rw [lhs2, ih (List.drop pat.length (c :: X')) Y (by
          simp only [List.length_drop, List.length_cons]
          omega)]
        rw [countOccurL_cons_match hXmatch]
        have rhs2 : countOccurFuel pat X'.length (List.drop pat.length (c :: X'))
            = countOccurL pat (List.drop pat.length (c :: X')) := by
          apply countOccurFuel_eq_of_le pat hpat
            ((List.drop pat.length (c :: X')).length) _ _ le_rfl
          simp only [List.length_drop, List.length_cons]
          omega
        rw [rhs2]
        omega
      · have hno : pat.isPrefixOf (c :: (X' ++ sep :: Y)) = false := Bool.eq_false_iff.mpr h
        have hXno : pat.isPrefixOf (c :: X') = false := by
          rw [Bool.eq_false_iff]
          intro hcontra
          apply h
          apply List.isPrefixOf_iff_prefix.mpr
          have hpX := List.isPrefixOf_iff_prefix.mp hcontra
          have hext : (c :: X') <+: (c :: X') ++ sep :: Y := List.prefix_append _ _
          simpa using hpX.trans hext
        rw [countOccurL_cons_nomatch hno, ih X' Y hX'n, countOccurL_cons_nomatch hXno]

/-- Replacement distributes over a separator-joined list of lines when the
pattern avoids the separator. -/
theorem replaceAllL_intercalate (pat rep : List Char) (hpat : pat ≠ []) (sep : Char)
    (hsep : sep ∉ pat) :
    ∀ L : List (List Char),
      replaceAllL pat rep (intercalateChar sep L)
        = intercalateChar sep (L.map (replaceAllL pat rep))
  | [] => by simp [intercalateChar, replaceAllL, replaceAllFuel]
  | [x] => by simp [intercalateChar]
  | x :: y :: rest => by
    rw [intercalateChar,
      replaceAllL_append_cons pat rep hpat sep hsep x.length x _ le_rfl,
      replaceAllL_intercalate pat rep hpat sep hsep (y :: rest)]
    simp [intercalateChar, List.map_cons]

/-- Counting distributes over a separator-joined list of lines when the
pattern avoids the separator. -/
theorem countOccurL_intercalate (pat : List Char) (hpat : pat ≠ []) (sep : Char)
    (hsep : sep ∉ pat) :
    ∀ L : List (List Char),
      countOccurL pat (intercalateChar sep L) = (L.map (countOccurL pat)).sum
  | [] => by simp [intercalateChar, countOccurL, countOccurFuel]
  | [x] => by simp [intercalateChar]
  | x :: y :: rest => by
    rw [intercalateChar,
      countOccurL_append_cons pat hpat sep hsep x.length x _ le_rfl,
      countOccurL_intercalate pat hpat sep hsep (y :: rest)]
    simp [intercalateChar, List.map_cons]

set_option maxRecDepth 1000000 in
/-- Computation check: substituting the two placeholders line by line yields
exactly the `substituted_lines` literal. -/
theorem substituted_lines_eq :
    ((html_template_lines.map String.toList).map
        (replaceAllL "INPUT_VIDEO".toList "clip.mp4".toList)).map
      (replaceAllL "OUTPUT_VIDEO".toList "clip_fft.mp4".toList)
      = substituted_lines.map String.toList := by decide

/-- Reduction of `replaceAll` to its length-fuelled form for the nonempty
`INPUT_VIDEO` pattern. -/
theorem replaceAll_input_pat (l rep : List Char) :
    replaceAll l "INPUT_VIDEO".toList rep = replaceAllL "INPUT_VIDEO".toList rep l := rfl

/-- Reduction of `replaceAll` to its length-fuelled form for the nonempty
`OUTPUT_VIDEO` pattern. -/
theorem replaceAll_output_pat (l rep : List Char) :
    replaceAll l "OUTPUT_VIDEO".toList rep = replaceAllL "OUTPUT_VIDEO".toList rep l := rfl

/-- Round trip between `String.mk` and `String.toList`. -/
theorem toList_mk (l : List Char) : (String.mk l).toList = l := rfl

/-- Characters of the HTML document generated for `clip.mp4` and
`clip_fft.mp4`: the line-joined template with both placeholder substitutions
pushed through the join. -/
theorem generate_html_clip_toList :
    (generate_html "clip.mp4" "clip_fft.mp4").toList
      = intercalateChar (Char.ofNat 10)
          (((html_template_lines.map String.toList).map
              (replaceAllL "INPUT_VIDEO".toList "clip.mp4".toList)).map
            (replaceAllL "OUTPUT_VIDEO".toList "clip_fft.mp4".toList)) := by
  have h1 : "INPUT_VIDEO".toList ≠ [] := by decide
  have h2 : "OUTPUT_VIDEO".toList ≠ [] := by decide
  have hs1 : Char.ofNat 10 ∉ "INPUT_VIDEO".toList := by decide
  have hs2 : Char.ofNat 10 ∉ "OUTPUT_VIDEO".toList := by decide
  have e1 : (stringReplace html_template "INPUT_VIDEO" (pathName "clip.mp4")).toList
      = replaceAll html_template.toList "INPUT_VIDEO".toList
          (pathName "clip.mp4").toList := by
    simp only [stringReplace, toList_mk]
  have e2 : (pathName "clip.mp4").toList = "clip.mp4".toList := rfl
  have e3 : html_template.toList
      = intercalateChar (Char.ofNat 10) (html_template_lines.map String.toList) := by
    simp only [html_template, toList_mk]
  have step1 : (stringReplace html_template "INPUT_VIDEO" (pathName "clip.mp4")).toList
      = intercalateChar (Char.ofNat 10)
          ((html_template_lines.map String.toList).map
            (replaceAllL "INPUT_VIDEO".toList "clip.mp4".toList)) := by
    rw [e1, e2, e3, replaceAll_input_pat]
    exact replaceAllL_intercalate _ _ h1 _ hs1 _
  have f1 : (generate_html "clip.mp4" "clip_fft.mp4").toList
      = replaceAll (stringReplace html_template "INPUT_VIDEO" (pathName "clip.mp4")).toList
          "OUTPUT_VIDEO".toList (pathName "clip_fft.mp4").toList := by
    simp only [generate_html, stringReplace, toList_mk]
  have f2 : (pathName "clip_fft.mp4").toList = "clip_fft.mp4".toList := rfl
  rw [f1, f2, step1, replaceAll_output_pat]
  exact replaceAllL_intercalate _ _ h2 _ hs2 _

/-- Counting any newline-free pattern in the generated document reduces to a
per-line sum over the substituted template lines. -/
theorem countOccur_generate_html (pat : String) (hne : pat.isEmpty = false)
    (hne' : pat.toList ≠ []) (hnl : Char.ofNat 10 ∉ pat.toList) :
    countOccur (generate_html "clip.mp4" "clip_fft.mp4") pat
      = ((substituted_lines.map String.toList).map (countOccurL pat.toList)).sum := by
  have hcl : countOccur (generate_html "clip.mp4" "clip_fft.mp4") pat
      = countOccurL pat.toList (generate_html "clip.mp4" "clip_fft.mp4").toList := by
    simp only [countOccur, hne, Bool.false_eq_true, if_false, countOccurL]
  rw [hcl, generate_html_clip_toList, substituted_lines_eq]
  exact countOccurL_intercalate pat.toList hne' (Char.ofNat 10) hnl
    (substituted_lines.map String.toList)

set_option maxRecDepth 1000000 in
/-- C6: for input video name `clip.mp4` and output name `clip_fft.mp4`, the
document produced by `generate_html` has exactly one `video` element with
source `clip.mp4`, exactly one with source `clip_fft.mp4` (in particular,
exactly one `src` attribute equal to each name), and no remaining occurrence
of the placeholder tokens `INPUT_VIDEO` and `OUTPUT_VIDEO`. -/
theorem C6_html_substitution :
    countOccur (generate_html "clip.mp4" "clip_fft.mp4")
        "<video id=\"video1\" src=\"clip.mp4\"></video>" = 1 ∧
    countOccur (generate_html "clip.mp4" "clip_fft.mp4")
        "<video id=\"video2\" src=\"clip_fft.mp4\"></video>" = 1 ∧
    countOccur (generate_html "clip.mp4" "clip_fft.mp4") "src=\"clip.mp4\"" = 1 ∧
    countOccur (generate_html "clip.mp4" "clip_fft.mp4") "src=\"clip_fft.mp4\"" = 1 ∧
    countOccur (generate_html "clip.mp4" "clip_fft.mp4") "INPUT_VIDEO" = 0 ∧
    countOccur (generate_html "clip.mp4" "clip_fft.mp4") "OUTPUT_VIDEO" = 0 := by
  refine ⟨?_, ?_, ?_, ?_, ?_, ?_⟩ <;>
    rw [countOccur_generate_html _ (by decide) (by decide) (by decide)] <;> decide

/-! ### Control-flow claims about `main` and the resource trace. -/

/-- A string contains its own suffix as a substring. -/
theorem containsSubstr_append_right (a b : String) : containsSubstr (a ++ b) b = true := by
  simp only [containsSubstr, List.any_eq_true, List.mem_range]
  refine ⟨a.toList.length, ?_, ?_⟩
  · simp only [String.toList, String.data_append, List.length_append]
    omega
  · simp only [String.toList, String.data_append, List.drop_left]
    exact List.isPrefixOf_iff_prefix.mpr (List.prefix_refl _)

/-- Value of `mainRun` on the missing-input path. -/
theorem mainRun_missing (env : Env) (input output html : String)
    (hne : env.fileExists input = false) :
    mainRun env input output html
      = ⟨1, ["Error: Input file not found: " ++ input], false, false, false, none⟩ := by
  unfold mainRun
  rw [if_pos hne]

/-- C4: a nonexistent input path makes `main` exit with code 1 and print an
error message containing the literal input path, before any decoder is
opened — `process_video` is never reached. -/
theorem C4_missing_input_reported_before_decode (env : Env) (input output html : String)
    (hne : env.fileExists input = false) :
    (mainRun env input output html).exitCode = 1 ∧
    (mainRun env input output html).openedDecoder = false ∧
    ∃ msg ∈ (mainRun env input output html).printed, containsSubstr msg input = true := by
  rw [mainRun_missing env input output html hne]
  exact ⟨rfl, rfl, "Error: Input file not found: " ++ input, List.mem_singleton_self _,
    containsSubstr_append_right _ _⟩

/-- Witness for C4 at the concrete missing path of the specification. -/
theorem C4_missing_input_reported_before_decode_witness :
    (mainRun ⟨fun _ => false, fun _ => none, none, false⟩ "missing.mp4" "out.mp4"
        "viz.html").exitCode = 1 ∧
    (mainRun ⟨fun _ => false, fun _ => none, none, false⟩ "missing.mp4" "out.mp4"
        "viz.html").openedDecoder = false ∧
    ∃ msg ∈ (mainRun ⟨fun _ => false, fun _ => none, none, false⟩ "missing.mp4" "out.mp4"
        "viz.html").printed, containsSubstr msg "missing.mp4" = true :=
  C4_missing_input_reported_before_decode _ _ _ _ rfl

/-- C10: on the missing-input path `main` returns 1 having touched neither
output file; the only observable side effect is the single error line. -/
theorem C10_missing_input_no_side_effects (env : Env) (input output html : String)
    (hne : env.fileExists input = false) :
    (mainRun env input output html).exitCode = 1 ∧
    (mainRun env input output html).videoTouched = false ∧
    (mainRun env input output html).htmlWritten = none ∧
    (mainRun env input output html).printed
      = ["Error: Input file not found: " ++ input] ∧
    (mainRun env input output html).openedDecoder = false := by
  rw [mainRun_missing env input output html hne]
  exact ⟨rfl, rfl, rfl, rfl, rfl⟩

/-- Witness for C10 at a concrete environment. -/
theorem C10_missing_input_no_side_effects_witness :
    (mainRun ⟨fun _ => false, fun _ => some 3, none, true⟩ "gone.avi" "out.mp4"
        "viz.html").exitCode = 1 ∧
    (mainRun ⟨fun _ => false, fun _ => some 3, none, true⟩ "gone.avi" "out.mp4"
        "viz.html").videoTouched = false ∧
    (mainRun ⟨fun _ => false, fun _ => some 3, none, true⟩ "gone.avi" "out.mp4"
        "viz.html").htmlWritten = none ∧
    (mainRun ⟨fun _ => false, fun _ => some 3, none, true⟩ "gone.avi" "out.mp4"
        "viz.html").printed = ["Error: Input file not found: " ++ "gone.avi"] ∧
    (mainRun ⟨fun _ => false, fun _ => some 3, none, true⟩ "gone.avi" "out.mp4"
        "viz.html").openedDecoder = false :=
  C10_missing_input_no_side_effects _ _ _ _ rfl

/-- C5: with an existing input path, `main` exits 0 exactly when the frame
pipeline and the HTML generation both complete; when either raises, the
exception is caught at the top level, a traceback is printed, and the exit
code is 1. -/
theorem C5_exit_codes (env : Env) (input output html : String)
    (hex : env.fileExists input = true) :
    ((pipelineRaises env input = false ∧ env.htmlWritable = true) →
      (mainRun env input output html).exitCode = 0 ∧
      (mainRun env input output html).tracePrinted = false) ∧
    ((pipelineRaises env input = true ∨ env.htmlWritable = false) →
      (mainRun env input output html).exitCode = 1 ∧
      (mainRun env input output html).tracePrinted = true) := by
  have hne : ¬ env.fileExists input = false := by simp [hex]
  unfold mainRun
  rw [if_neg hne]
  cases hd : env.decodeFrames input with
  | none =>
    dsimp only
    constructor
    · rintro ⟨hp, _⟩
      simp [pipelineRaises, hd] at hp
    · intro _
      exact ⟨rfl, rfl⟩
  | some n =>
    cases hf : env.frameFail with
    | none =>
      dsimp only
      constructor
      · rintro ⟨_, hw⟩
        unfold mainRunTail
        rw [if_pos hw]
        exact ⟨rfl, rfl⟩
      · intro hcase
        rcases hcase with hp | hw
        · simp [pipelineRaises, hd, hf] at hp
        · unfold mainRunTail
          rw [if_neg (by simp [hw])]
          exact ⟨rfl, rfl⟩
    | some i =>
      dsimp only
      by_cases hin : i < n
      · rw [if_pos hin]
        constructor
        · rintro ⟨hp, _⟩
          simp [pipelineRaises, hd, hf, hin] at hp
        · intro _
          exact ⟨rfl, rfl⟩
      · rw [if_neg hin]
        constructor
        · rintro ⟨_, hw⟩
          unfold mainRunTail
          rw [if_pos hw]
          exact ⟨rfl, rfl⟩
        · intro hcase
          rcases hcase with hp | hw
          · simp [pipelineRaises, hd, hf, hin] at hp
          · unfold mainRunTail
            rw [if_neg (by simp [hw])]
            exact ⟨rfl, rfl⟩

/-- Witness for C5: a fully successful run exits 0 without a traceback. -/
theorem C5_exit_codes_witness :
    (mainRun ⟨fun _ => true, fun _ => some 1, none, true⟩ "in.mp4" "out.mp4"
        "viz.html").exitCode = 0 ∧
    (mainRun ⟨fun _ => true, fun _ => some 1, none, true⟩ "in.mp4" "out.mp4"
        "viz.html").tracePrinted = false :=
  (C5_exit_codes _ _ _ _ rfl).1 ⟨rfl, rfl⟩

/-- The frame loop never emits the capture-release event. -/
theorem frameLoop_releaseCap_not_mem (failAt : Option ℕ) :
    ∀ r i, Ev.releaseCap ∉ (frameLoop failAt i r).1 := by
  intro r
  induction r with
  | zero => intro i; simp [frameLoop]
  | succ r ih =>
    intro i
    by_cases h : failAt = some i
    · simp [frameLoop, h]
    · simp [frameLoop, h, ih (i + 1)]

/-- The frame loop never emits the writer-release event. -/
theorem frameLoop_releaseWriter_not_mem (failAt : Option ℕ) :
    ∀ r i, Ev.releaseWriter ∉ (frameLoop failAt i r).1 := by
  intro r
  induction r with
  | zero => intro i; simp [frameLoop]
  | succ r ih =>
    intro i
    by_cases h : failAt = some i
    · simp [frameLoop, h]
    · simp [frameLoop, h, ih (i + 1)]

/-- The frame loop completes normally when no injected exception hits its
range. -/
theorem frameLoop_snd_true (failAt : Option ℕ) :
    ∀ r i, (∀ j, failAt = some j → j < i ∨ i + r ≤ j) → (frameLoop failAt i r).2 = true := by
  intro r
  induction r with
  | zero => intro i _; rfl
  | succ r ih =>
    intro i hj
    by_cases h : failAt = some i
    · exfalso
      rcases hj i h with h1 | h2 <;> omega
    · simp only [frameLoop, if_neg h]
      show (frameLoop failAt (i + 1) r).2 = true
      exact ih (i + 1) fun j hfj => by rcases hj j hfj with h1 | h2 <;> omega

/-- The frame loop aborts when the injected exception hits its range. -/
theorem frameLoop_snd_false (failAt : Option ℕ) :
    ∀ r i j, failAt = some j → i ≤ j → j < i + r → (frameLoop failAt i r).2 = false := by
  intro r
  induction r with
  | zero =>
    intro i j _ _ h2
    omega
  | succ r ih =>
    intro i j hfj hij hjr
    by_cases h : failAt = some i
    · simp [frameLoop, h]
    · have hne : j ≠ i := fun he => h (he ▸ hfj)
      simp only [frameLoop, if_neg h]
      show (frameLoop failAt (i + 1) r).2 = false
      exact ih (i + 1) j hfj (by omega) (by omega)

/-- C8 as stated fails on the code: on a one-frame video with an exception
raised while processing frame 0, the trace of `process_video` contains
neither release call (the releases sit after the loop with no
`try`/`finally`). -/
theorem C8_counterexample :
    ¬ (Ev.releaseCap ∈ process_video_trace 1 (some 0) ∧
       Ev.releaseWriter ∈ process_video_trace 1 (some 0)) := by decide

/-- C8 amended: both handles are released when the frame loop completes
normally, and neither handle is released when an exception is raised during
frame processing or writing — the exception propagates before the release
calls at the end of `process_video`. -/
theorem C8_release_only_on_normal_completion (n : ℕ) (failAt : Option ℕ) :
    ((∀ i, failAt = some i → n ≤ i) →
      Ev.releaseCap ∈ process_video_trace n failAt ∧
      Ev.releaseWriter ∈ process_video_trace n failAt) ∧
    (∀ i, failAt = some i → i < n →
      Ev.releaseCap ∉ process_video_trace n failAt ∧
      Ev.releaseWriter ∉ process_video_trace n failAt) := by
  constructor
  · intro hok
    have hsnd : (frameLoop failAt 0 n).2 = true :=
      frameLoop_snd_true failAt n 0 fun j hj => Or.inr (by simpa using hok j hj)
    unfold process_video_trace
    simp [hsnd]
  · intro i hfi hin
    have hsnd : (frameLoop failAt 0 n).2 = false :=
      frameLoop_snd_false failAt n 0 i hfi (Nat.zero_le _) (by omega)
    unfold process_video_trace
    simp [hsnd, frameLoop_releaseCap_not_mem failAt n 0,
      frameLoop_releaseWriter_not_mem failAt n 0]

/-- Witness for the amended C8: a two-frame run without exception releases
both handles; a one-frame run failing at frame 0 releases neither. -/
theorem C8_release_only_on_normal_completion_witness :
    Ev.releaseCap ∈ process_video_trace 2 none ∧
    Ev.releaseWriter ∈ process_video_trace 2 none ∧
    Ev.releaseCap ∉ process_video_trace 1 (some 0) := by
  have h1 := (C8_release_only_on_normal_completion 2 none).1 fun i hi => by simp at hi
  have h2 := (C8_release_only_on_normal_completion 1 (some 0)).2 0 rfl (by decide)
  exact ⟨h1.1, h1.2, h2.1⟩

/-! ### Shift, dimension and pipeline-composition claims. -/

/-- The one-axis shift of `fftshift` is self-inverse on an even-length axis. -/
theorem shiftIdx_shiftIdx {n : ℕ} (hn : n % 2 = 0) (i : Fin n) :
    shiftIdx (shiftIdx i) = i := by
  have hpos : 0 < n := i.pos
  haveI : NeZero n := ⟨Nat.pos_iff_ne_zero.mp hpos⟩
  unfold shiftIdx
  rw [sub_sub]
  have hcc : (⟨n / 2, Nat.div_lt_self hpos one_lt_two⟩
      + ⟨n / 2, Nat.div_lt_self hpos one_lt_two⟩ : Fin n) = 0 := by
    apply Fin.ext
    rw [Fin.val_add]
    have h2 : n / 2 + n / 2 = n := by omega
    simp only [h2, Nat.mod_self]
    simp
  rw [hcc, sub_zero]

/-- C7: applying the centre shift twice returns an even-dimensioned grid to
its original layout. -/
theorem C7_fftshift_self_inverse {α : Type} {H W : ℕ} (hH : H % 2 = 0) (hW : W % 2 = 0)
    (g : Fin H → Fin W → α) : fftshift (fftshift g) = g := by
  funext k l
  unfold fftshift
  rw [shiftIdx_shiftIdx hH, shiftIdx_shiftIdx hW]

/-- Witness for C7 on a concrete 2×2 grid. -/
theorem C7_fftshift_self_inverse_witness :
    fftshift (fftshift fun (k : Fin 2) (l : Fin 2) => 2 * k.val + l.val)
      = fun (k : Fin 2) (l : Fin 2) => 2 * k.val + l.val :=
  C7_fftshift_self_inverse (by decide) (by decide) _

/-- C2: the output video of `process_video` has exactly as many frames as the
input and the same width, height and frame rate. -/
theorem C2_output_metadata_matches_input (v : Video) :
    (process_video v).frames.length = v.frames.length ∧
    (process_video v).width = v.width ∧
    (process_video v).height = v.height ∧
    (process_video v).fps = v.fps :=
  ⟨List.length_map _ _, rfl, rfl, rfl⟩

/-- C1: every frame written by `process_video` is the specification's exact
composition of steps applied to the decoded frame, in decode order:
luma-weighted grayscale, 2-D discrete frequency transform, centre shift,
magnitude, log(1+x) compression, linear [0, 255] normalization, and
3-channel replication. -/
theorem C1_frames_are_spec_composition (v : Video) :
    (process_video v).frames = v.frames.map spec_frame_pipeline := rfl

/-! ### Spectrum claims: the all-zero frame, and the normalization extrema. -/

/-- Positivity of the OpenCV epsilon guard. -/
theorem DBL_EPSILON_pos : 0 < DBL_EPSILON :=
  inv_pos.mpr (pow_pos two_pos 52)

/-- Minimum of a constant grid. -/
theorem gridMin_const {H W : ℕ} (h : 0 < H ∧ 0 < W) (c : ℝ) :
    gridMin (fun (_ : Fin H) (_ : Fin W) => c) = c := by
  unfold gridMin
  rw [dif_pos h]
  exact Finset.inf'_const _ _

/-- Maximum of a constant grid. -/
theorem gridMax_const {H W : ℕ} (h : 0 < H ∧ 0 < W) (c : ℝ) :
    gridMax (fun (_ : Fin H) (_ : Fin W) => c) = c := by
  unfold gridMax
  rw [dif_pos h]
  exact Finset.sup'_const _ _

/-- Min-max normalization sends every constant grid to the zero grid: the
spread is below the epsilon guard, so OpenCV uses scale 0 and shift 0. -/
theorem cvNormalizeMinMax_const {H W : ℕ} (c : ℝ) :
    cvNormalizeMinMax (fun (_ : Fin H) (_ : Fin W) => c) = fun _ _ => 0 := by
  funext k l
  have h : 0 < H ∧ 0 < W := ⟨k.pos, l.pos⟩
  unfold cvNormalizeMinMax
  simp only [gridMin_const h, gridMax_const h, sub_self]
  rw [if_neg (not_lt.mpr DBL_EPSILON_pos.le)]
  ring

/-- Conversion of the float 0 to `uint8`. -/
theorem astypeUInt8_zero : astypeUInt8 0 = 0 := by
  unfold astypeUInt8
  norm_num

/-- The per-frame pipeline, written through the named `log_magnitude`
intermediate. -/
theorem process_frame_fft_eq {H W : ℕ} (frame : Fin H → Fin W → ℕ) :
    process_frame_fft frame
      = fun k l => astypeUInt8 (cvNormalizeMinMax (log_magnitude_of frame) k l) := rfl

/-- C9: a frame whose every pixel is 0 is sent by `process_frame_fft` to the
grid whose every entry is 0 — in particular no entry equals 255 and there is
no nonzero centre point: the log-magnitude spectrum is identically zero and
the min-max normalization of a constant grid is identically zero. -/
theorem C9_zero_frame_all_zero_output {H W : ℕ} (frame : Fin H → Fin W → ℕ)
    (hz : ∀ m n, frame m n = 0) :
    (∀ k l, process_frame_fft frame k l = 0) ∧
    (∀ k l, process_frame_fft frame k l ≠ 255) := by
  have hlog : log_magnitude_of frame = fun (_ : Fin H) (_ : Fin W) => (0 : ℝ) := by
    funext k l
    unfold log_magnitude_of fftshift dft2
    simp [hz]
  rw [process_frame_fft_eq, hlog, cvNormalizeMinMax_const]
  refine ⟨fun k l => astypeUInt8_zero, fun k l => ?_⟩
  show astypeUInt8 0 ≠ 255
  rw [astypeUInt8_zero]
  omega

/-- Witness for C9 on the 2×2 zero frame. -/
theorem C9_zero_frame_all_zero_output_witness :
    (∀ k l, process_frame_fft (fun (_ : Fin 2) (_ : Fin 2) => 0) k l = 0) ∧
    (∀ k l, process_frame_fft (fun (_ : Fin 2) (_ : Fin 2) => 0) k l ≠ 255) :=
  C9_zero_frame_all_zero_output _ fun _ _ => rfl

/-- The epsilon guard is below one. -/
theorem DBL_EPSILON_lt_one : DBL_EPSILON < 1 := by
  have h : (1 : ℝ) < 2 ^ (52 : ℕ) := one_lt_pow one_lt_two (by norm_num)
  exact inv_lt_one h

/-- Lower bound on a grid minimum. -/
theorem le_gridMin {H W : ℕ} (h : 0 < H ∧ 0 < W) (g : Fin H → Fin W → ℝ) (b : ℝ)
    (hb : ∀ k l, b ≤ g k l) : b ≤ gridMin g := by
  unfold gridMin
  rw [dif_pos h]
  exact (Finset.le_inf'_iff _ _).mpr fun p _ => hb p.1 p.2

/-- A grid minimum is below every entry. -/
theorem gridMin_le {H W : ℕ} (h : 0 < H ∧ 0 < W) (g : Fin H → Fin W → ℝ) (k : Fin H)
    (l : Fin W) : gridMin g ≤ g k l := by
  unfold gridMin
  rw [dif_pos h]
  exact Finset.inf'_le (fun p : Fin H × Fin W => g p.1 p.2) (Finset.mem_univ (k, l))

/-- Upper bound on a grid maximum. -/
theorem gridMax_le {H W : ℕ} (h : 0 < H ∧ 0 < W) (g : Fin H → Fin W → ℝ) (b : ℝ)
    (hb : ∀ k l, g k l ≤ b) : gridMax g ≤ b := by
  unfold gridMax
  rw [dif_pos h]
  exact (Finset.sup'_le_iff _ _).mpr fun p _ => hb p.1 p.2

/-- A grid maximum is above every entry. -/
theorem le_gridMax {H W : ℕ} (h : 0 < H ∧ 0 < W) (g : Fin H → Fin W → ℝ) (k : Fin H)
    (l : Fin W) : g k l ≤ gridMax g := by
  unfold gridMax
  rw [dif_pos h]
  exact Finset.le_sup' (fun p : Fin H × Fin W => g p.1 p.2) (Finset.mem_univ (k, l))

/-- A grid minimum is attained. -/
theorem gridMin_exists {H W : ℕ} (h : 0 < H ∧ 0 < W) (g : Fin H → Fin W → ℝ) :
    ∃ k l, g k l = gridMin g := by
  unfold gridMin
  rw [dif_pos h]
  obtain ⟨p, _, hp⟩ := Finset.exists_mem_eq_inf'
    (Finset.univ_nonempty_iff.mpr ⟨(⟨0, h.1⟩, ⟨0, h.2⟩)⟩)
    (fun p : Fin H × Fin W => g p.1 p.2)
  exact ⟨p.1, p.2, hp.symm⟩

/-- A grid maximum is attained. -/
theorem gridMax_exists {H W : ℕ} (h : 0 < H ∧ 0 < W) (g : Fin H → Fin W → ℝ) :
    ∃ k l, g k l = gridMax g := by
  unfold gridMax
  rw [dif_pos h]
  obtain ⟨p, _, hp⟩ := Finset.exists_mem_eq_sup'
    (Finset.univ_nonempty_iff.mpr ⟨(⟨0, h.1⟩, ⟨0, h.2⟩)⟩)
    (fun p : Fin H × Fin W => g p.1 p.2)
  exact ⟨p.1, p.2, hp.symm⟩

/-- Pointwise form of the min-max normalization. -/
theorem cvNormalizeMinMax_apply {H W : ℕ} (g : Fin H → Fin W → ℝ) (k : Fin H) (l : Fin W) :
    cvNormalizeMinMax g k l
      = g k l * ((255 - 0)
          * (if DBL_EPSILON < gridMax g - gridMin g then (gridMax g - gridMin g)⁻¹ else 0))
        + (0 - gridMin g * ((255 - 0)
          * (if DBL_EPSILON < gridMax g - gridMin g then (gridMax g - gridMin g)⁻¹ else 0))) :=
  rfl

/-- Conversion of the float 255 to `uint8`. -/
theorem astypeUInt8_255 : astypeUInt8 255 = 255 := by
  unfold astypeUInt8
  rw [if_pos (by norm_num : (0 : ℝ) ≤ 255)]
  rw [show ((255 : ℝ)) = ((255 : ℤ) : ℝ) by norm_num, Int.floor_intCast]
  decide

/-- Geometric sum of DFT twiddle factors along one axis: `Σ_m exp(-2πi·j·m/N)`
is `N` for `j = 0` and `0` otherwise. -/
theorem expSum (N : ℕ) (hN : 0 < N) (j : Fin N) :
    (∑ m : Fin N,
        Complex.exp (-(2 * (Real.pi : ℂ) * Complex.I)
          * ((j.val : ℂ) * (m.val : ℂ) / (N : ℂ))))
      = if j.val = 0 then (N : ℂ) else 0 := by
  have hN0 : (N : ℂ) ≠ 0 := Nat.cast_ne_zero.mpr hN.ne'
  set z : ℂ := Complex.exp (-(2 * (Real.pi : ℂ) * Complex.I) * ((j.val : ℂ) / (N : ℂ)))
    with hz
  have hterm : ∀ m : Fin N,
      Complex.exp (-(2 * (Real.pi : ℂ) * Complex.I)
          * ((j.val : ℂ) * (m.val : ℂ) / (N : ℂ)))
        = z ^ m.val := by
    intro m
    rw [hz, ← Complex.exp_nat_mul]
    congr 1
    ring
  rw [Finset.sum_congr rfl fun m _ => hterm m,
    Fin.sum_univ_eq_sum_range (fun m => z ^ m) N]
  by_cases hj : j.val = 0
  · rw [if_pos hj]
    have hz1 : z = 1 := by
      rw [hz, hj]
      simp
    rw [hz1]
    simp
  · rw [if_neg hj]
    have hzN : z ^ N = 1 := by
      rw [hz, ← Complex.exp_nat_mul]
      have harg : (N : ℂ) * (-(2 * (Real.pi : ℂ) * Complex.I) * ((j.val : ℂ) / (N : ℂ)))
          = ((-(j.val : ℤ) : ℤ) : ℂ) * (2 * (Real.pi : ℂ) * Complex.I) := by
        push_cast
        field_simp
        ring
      rw [harg, Complex.exp_int_mul_two_pi_mul_I]
    have hzne : z ≠ 1 := by
      intro hcontra
      rw [hz] at hcontra
      obtain ⟨t, ht⟩ := Complex.exp_eq_one_iff.mp hcontra
      have hpiI : (2 * (Real.pi : ℂ) * Complex.I) ≠ 0 := by
        have hpi : (Real.pi : ℂ) ≠ 0 := Complex.ofReal_ne_zero.mpr Real.pi_ne_zero
        simp [hpi, Complex.I_ne_zero]
      have ht2 : (-((j.val : ℂ) / (N : ℂ))) * (2 * (Real.pi : ℂ) * Complex.I)
          = (t : ℂ) * (2 * (Real.pi : ℂ) * Complex.I) := by
        rw [← ht]
        ring
      have ht3 : -((j.val : ℂ) / (N : ℂ)) = (t : ℂ) := mul_right_cancel₀ hpiI ht2
      have ht5 : ((j.val : ℂ) / (N : ℂ)) = -(t : ℂ) := by
        rw [← ht3, neg_neg]
      have ht4 : ((j.val : ℝ) / (N : ℝ)) = ((-t : ℤ) : ℝ) := by
        have hc : (((j.val : ℝ) / (N : ℝ) : ℝ) : ℂ) = ((((-t : ℤ) : ℝ) : ℝ) : ℂ) := by
          push_cast
          rw [ht5]
        exact_mod_cast hc
      have h0 : 0 < (j.val : ℝ) / (N : ℝ) :=
        div_pos (by exact_mod_cast Nat.pos_of_ne_zero hj) (by exact_mod_cast hN)
      have h1 : (j.val : ℝ) / (N : ℝ) < 1 :=
        (div_lt_one (by exact_mod_cast hN)).mpr (by exact_mod_cast j.isLt)
      rw [ht4] at h0 h1
      have h0i : (0 : ℤ) < -t := by exact_mod_cast h0
      have h1i : (-t : ℤ) < 1 := by exact_mod_cast h1
      omega
    rw [geom_sum_eq hzne, hzN]
    simp

/-- The 2-D DFT of a constant grid is the single coefficient `c·H·W` at the
zero frequency. -/
theorem dft2_const (H W : ℕ) (hH : 0 < H) (hW : 0 < W) (c : ℕ) (k : Fin H) (l : Fin W) :
    dft2 H W (fun _ _ => (c : ℂ)) k l
      = if k.val = 0 ∧ l.val = 0 then ((c * H * W : ℕ) : ℂ) else 0 := by
  have hA : ∀ m : Fin H, ∀ n : Fin W,
      Complex.exp (-(2 * (Real.pi : ℂ) * Complex.I)
          * ((k.val : ℂ) * (m.val : ℂ) / (H : ℂ) + (l.val : ℂ) * (n.val : ℂ) / (W : ℂ)))
        = Complex.exp (-(2 * (Real.pi : ℂ) * Complex.I)
            * ((k.val : ℂ) * (m.val : ℂ) / (H : ℂ)))
          * Complex.exp (-(2 * (Real.pi : ℂ) * Complex.I)
            * ((l.val : ℂ) * (n.val : ℂ) / (W : ℂ))) := by
    intro m n
    rw [← Complex.exp_add]
    congr 1
    ring
  unfold dft2
  simp only [hA]
  have hinner : ∀ m : Fin H,
      (∑ n : Fin W, (c : ℂ)
          * (Complex.exp (-(2 * (Real.pi : ℂ) * Complex.I)
              * ((k.val : ℂ) * (m.val : ℂ) / (H : ℂ)))
            * Complex.exp (-(2 * (Real.pi : ℂ) * Complex.I)
              * ((l.val : ℂ) * (n.val : ℂ) / (W : ℂ)))))
        = (c : ℂ) * Complex.exp (-(2 * (Real.pi : ℂ) * Complex.I)
            * ((k.val : ℂ) * (m.val : ℂ) / (H : ℂ)))
          * ∑ n : Fin W, Complex.exp (-(2 * (Real.pi : ℂ) * Complex.I)
              * ((l.val : ℂ) * (n.val : ℂ) / (W : ℂ))) := by
    intro m
    rw [Finset.mul_sum]
    exact Finset.sum_congr rfl fun n _ => by ring
  rw [Finset.sum_congr rfl fun m _ => hinner m, ← Finset.sum_mul, ← Finset.mul_sum,
    expSum H hH k, expSum W hW l]
  by_cases hk : k.val = 0 <;> by_cases hl : l.val = 0
  · rw [if_pos hk, if_pos hl, if_pos ⟨hk, hl⟩]
    push_cast
    ring
  · rw [if_pos hk, if_neg hl, if_neg (by tauto)]
    ring
  · rw [if_neg hk, if_pos hl, if_neg (by tauto)]
    ring
  · rw [if_neg hk, if_neg hl, if_neg (by tauto)]
    ring

/-- The one-axis shift hits the zero frequency exactly at the centre index. -/
theorem shiftIdx_val_eq_zero_iff {n : ℕ} (hn : 0 < n) (i : Fin n) :
    (shiftIdx i).val = 0 ↔ i = centerIdx n hn := by
  unfold shiftIdx centerIdx
  rw [Fin.sub_def]
  dsimp only
  constructor
  · intro h
    obtain ⟨q, hq⟩ := Nat.dvd_of_mod_eq_zero h
    have hi := i.isLt
    apply Fin.ext
    dsimp only
    rcases q with _ | _ | q
    · omega
    · omega
    · have hge : n * 2 ≤ n * (q + 1 + 1) := Nat.mul_le_mul_left n (by omega)
      omega
  · intro h
    subst h
    dsimp only
    have hsum : (n - n / 2) + n / 2 = n := by omega
    rw [hsum, Nat.mod_self]

/-- Log-magnitude grid of a uniform frame of value `c`: `log(1 + c·H·W)` at
the centre, `0` elsewhere. -/
theorem log_magnitude_uniform {H W : ℕ} (hH : 0 < H) (hW : 0 < W) (c : ℕ)
    (frame : Fin H → Fin W → ℕ) (hc : ∀ m n, frame m n = c) (k : Fin H) (l : Fin W) :
    log_magnitude_of frame k l
      = if k = centerIdx H hH ∧ l = centerIdx W hW
        then Real.log (1 + ((c * H * W : ℕ) : ℝ)) else 0 := by
  have hcast : (fun m n => ((frame m n : ℕ) : ℂ))
      = fun (_ : Fin H) (_ : Fin W) => (c : ℂ) := by
    funext m n
    rw [hc m n]
  unfold log_magnitude_of fftshift
  rw [hcast, dft2_const H W hH hW c (shiftIdx k) (shiftIdx l)]
  have hk := shiftIdx_val_eq_zero_iff hH k
  have hl := shiftIdx_val_eq_zero_iff hW l
  by_cases hcond : k = centerIdx H hH ∧ l = centerIdx W hW
  · rw [if_pos ⟨hk.mpr hcond.1, hl.mpr hcond.2⟩, if_pos hcond, Complex.abs_natCast]
  · rw [if_neg fun hc2 => hcond ⟨hk.mp hc2.1, hl.mp hc2.2⟩, if_neg hcond]
    simp

/-- The natural logarithm exceeds 1 from 3 onwards. -/
theorem one_lt_log_of_three_le {x : ℝ} (hx : 3 ≤ x) : 1 < Real.log x := by
  rw [Real.lt_log_iff_exp_lt (by linarith : (0 : ℝ) < x)]
  calc Real.exp 1 < 2.7182818286 := Real.exp_one_lt_d9
    _ ≤ 3 := by norm_num
    _ ≤ x := hx

/-- Extrema of the log-magnitude grid of a uniform positive frame with at
least two pixels: maximum `log(1 + c·H·W)` and minimum `0`. -/
theorem uniform_extrema {H W : ℕ} (hH : 0 < H) (hW : 0 < W) (c : ℕ) (hc : 0 < c)
    (hHW : 1 < H * W) (frame : Fin H → Fin W → ℕ) (hcf : ∀ m n, frame m n = c) :
    gridMax (log_magnitude_of frame) = Real.log (1 + ((c * H * W : ℕ) : ℝ)) ∧
    gridMin (log_magnitude_of frame) = 0 := by
  have hLpos : 0 ≤ Real.log (1 + ((c * H * W : ℕ) : ℝ)) :=
    Real.log_nonneg ((le_add_iff_nonneg_right 1).mpr (Nat.cast_nonneg _))
  have hval := log_magnitude_uniform hH hW c frame hcf
  constructor
  · apply le_antisymm
    · apply gridMax_le ⟨hH, hW⟩
      intro k l
      rw [hval k l]
      by_cases h : k = centerIdx H hH ∧ l = centerIdx W hW
      · rw [if_pos h]
      · rw [if_neg h]
        exact hLpos
    · have hle := le_gridMax ⟨hH, hW⟩ (log_magnitude_of frame)
        (centerIdx H hH) (centerIdx W hW)
      rwa [hval, if_pos ⟨rfl, rfl⟩] at hle
  · apply le_antisymm
    · have hcard : 1 < (Finset.univ : Finset (Fin H × Fin W)).card := by
        rw [Finset.card_univ]
        simpa [Fintype.card_prod, Fintype.card_fin] using hHW
      obtain ⟨p, _, hp⟩ := Finset.exists_ne_of_one_lt_card hcard
        (centerIdx H hH, centerIdx W hW)
      have hpv : log_magnitude_of frame p.1 p.2 = 0 := by
        rw [hval p.1 p.2, if_neg]
        intro hcon
        exact hp (Prod.ext hcon.1 hcon.2)
      have hle := gridMin_le ⟨hH, hW⟩ (log_magnitude_of frame) p.1 p.2
      rwa [hpv] at hle
    · apply le_gridMin ⟨hH, hW⟩
      intro k l
      rw [hval k l]
      by_cases h : k = centerIdx H hH ∧ l = centerIdx W hW
      · rw [if_pos h]
        exact hLpos
      · rw [if_neg h]

/-- C3 amended: (i) whenever the spread of the log-magnitude spectrum exceeds
the normalization epsilon guard — in particular whenever the spectrum is not
essentially constant — the normalized grid attains 0 and 255 somewhere;
(ii) a perfectly uniform frame of nonzero value with at least two pixels
yields the single nonzero centre point 255 with every other value 0. -/
theorem C3_normalized_extremes (H W : ℕ) (hH : 0 < H) (hW : 0 < W)
    (frame : Fin H → Fin W → ℕ) :
    (DBL_EPSILON < gridMax (log_magnitude_of frame) - gridMin (log_magnitude_of frame) →
      (∃ k l, process_frame_fft frame k l = 0) ∧
      (∃ k l, process_frame_fft frame k l = 255)) ∧
    (∀ c : ℕ, 0 < c → 1 < H * W → (∀ m n, frame m n = c) →
      process_frame_fft frame (centerIdx H hH) (centerIdx W hW) = 255 ∧
      ∀ k l, ¬(k = centerIdx H hH ∧ l = centerIdx W hW) →
        process_frame_fft frame k l = 0) := by
  constructor
  · intro h
    have hpos : 0 < gridMax (log_magnitude_of frame) - gridMin (log_magnitude_of frame) :=
      lt_trans DBL_EPSILON_pos h
    obtain ⟨k0, l0, hmin⟩ := gridMin_exists ⟨hH, hW⟩ (log_magnitude_of frame)
    obtain ⟨k1, l1, hmax⟩ := gridMax_exists ⟨hH, hW⟩ (log_magnitude_of frame)
    have hnorm0 : cvNormalizeMinMax (log_magnitude_of frame) k0 l0 = 0 := by
      rw [cvNormalizeMinMax_apply, if_pos h, hmin]
      ring
    have hnorm255 : cvNormalizeMinMax (log_magnitude_of frame) k1 l1 = 255 := by
      rw [cvNormalizeMinMax_apply, if_pos h, hmax]
      field_simp
      ring
    refine ⟨⟨k0, l0, ?_⟩, ⟨k1, l1, ?_⟩⟩
    · rw [process_frame_fft_eq]
      show astypeUInt8 (cvNormalizeMinMax (log_magnitude_of frame) k0 l0) = 0
      rw [hnorm0, astypeUInt8_zero]
    · rw [process_frame_fft_eq]
      show astypeUInt8 (cvNormalizeMinMax (log_magnitude_of frame) k1 l1) = 255
      rw [hnorm255, astypeUInt8_255]
  · intro c hc hHW hcf
    obtain ⟨hexmax, hexmin⟩ := uniform_extrema hH hW c hc hHW frame hcf
    have hval := log_magnitude_uniform hH hW c frame hcf
    have h3 : (3 : ℝ) ≤ 1 + ((c * H * W : ℕ) : ℝ) := by
      have hassoc : c * H * W = c * (H * W) := by ring
      have h1 : H * W ≤ c * (H * W) := Nat.le_mul_of_pos_left _ hc
      have hn : 2 ≤ c * H * W := by omega
      have hn2 : (2 : ℝ) ≤ ((c * H * W : ℕ) : ℝ) := by exact_mod_cast hn
      linarith
    have hL1 : 1 < Real.log (1 + ((c * H * W : ℕ) : ℝ)) := one_lt_log_of_three_le h3
    have hspread : DBL_EPSILON
        < gridMax (log_magnitude_of frame) - gridMin (log_magnitude_of frame) := by
      rw [hexmax, hexmin, sub_zero]
      exact lt_trans DBL_EPSILON_lt_one hL1
    constructor
    · rw [process_frame_fft_eq]
      show astypeUInt8
        (cvNormalizeMinMax (log_magnitude_of frame) (centerIdx H hH) (centerIdx W hW)) = 255
      have hnormc : cvNormalizeMinMax (log_magnitude_of frame)
          (centerIdx H hH) (centerIdx W hW) = 255 := by
        rw [cvNormalizeMinMax_apply, if_pos hspread, hexmax, hexmin,
          hval (centerIdx H hH) (centerIdx W hW), if_pos ⟨rfl, rfl⟩, sub_zero]
        have hLne : Real.log (1 + ((c * H * W : ℕ) : ℝ)) ≠ 0 := by linarith
        field_simp
        push_cast at hLne
        rw [mul_comm, mul_div_assoc, div_self hLne, mul_one]
      rw [hnormc, astypeUInt8_255]
    · intro k l hkl
      rw [process_frame_fft_eq]
      show astypeUInt8 (cvNormalizeMinMax (log_magnitude_of frame) k l) = 0
      have hnorml : cvNormalizeMinMax (log_magnitude_of frame) k l = 0 := by
        rw [cvNormalizeMinMax_apply, if_pos hspread, hexmin, hval k l, if_neg hkl]
        ring
      rw [hnorml, astypeUInt8_zero]

/-- C3 as stated fails on the code: the 1×2 impulse frame `[1, 0]` is not
uniform, yet its magnitude spectrum is constant, so the epsilon guard of the
normalization zeroes the whole output and the value 255 is never attained. -/
theorem C3_counterexample :
    (¬ ∀ (m : Fin 1) (n : Fin 2) (m2 : Fin 1) (n2 : Fin 2),
        (fun (_ : Fin 1) (j : Fin 2) => if j.val = 0 then 1 else 0 : Fin 1 → Fin 2 → ℕ) m n
          = (fun (_ : Fin 1) (j : Fin 2) => if j.val = 0 then 1 else 0) m2 n2) ∧
    ∀ k l, process_frame_fft
        (fun (_ : Fin 1) (j : Fin 2) => if j.val = 0 then 1 else 0) k l ≠ 255 := by
  constructor
  · decide
  · have hdft : ∀ (k : Fin 1) (l : Fin 2),
        dft2 1 2 (fun m n =>
          (((fun (_ : Fin 1) (j : Fin 2) => if j.val = 0 then 1 else 0 :
              Fin 1 → Fin 2 → ℕ) m n : ℕ) : ℂ)) k l = 1 := by
      intro k l
      unfold dft2
      simp [Fin.sum_univ_one, Fin.sum_univ_two]
    have hlog : log_magnitude_of
        (fun (_ : Fin 1) (j : Fin 2) => if j.val = 0 then 1 else 0)
          = fun (_ : Fin 1) (_ : Fin 2) => Real.log 2 := by
      funext k l
      unfold log_magnitude_of fftshift
      rw [hdft (shiftIdx k) (shiftIdx l)]
      norm_num
    intro k l
    rw [process_frame_fft_eq]
    show astypeUInt8 (cvNormalizeMinMax (log_magnitude_of
      (fun (_ : Fin 1) (j : Fin 2) => if j.val = 0 then 1 else 0)) k l) ≠ 255
    rw [hlog, cvNormalizeMinMax_const]
    show astypeUInt8 0 ≠ 255
    rw [astypeUInt8_zero]
    omega

/-- Witness for the amended C3 on the uniform 1×2 frame of value 1. -/
theorem C3_normalized_extremes_witness :
    process_frame_fft (fun (_ : Fin 1) (_ : Fin 2) => 1)
        (centerIdx 1 one_pos) (centerIdx 2 two_pos) = 255 ∧
    (∃ k l, process_frame_fft (fun (_ : Fin 1) (_ : Fin 2) => 1) k l = 0) ∧
    (∃ k l, process_frame_fft (fun (_ : Fin 1) (_ : Fin 2) => 1) k l = 255) := by
  have h := C3_normalized_extremes 1 2 one_pos two_pos (fun _ _ => 1)
  have hb := h.2 1 one_pos (by norm_num) fun _ _ => rfl
  have hex := uniform_extrema one_pos two_pos 1 one_pos (by norm_num)
    (fun _ _ => 1) fun _ _ => rfl
  have h3 : (3 : ℝ) ≤ 1 + ((1 * 1 * 2 : ℕ) : ℝ) := by norm_num
  have hL1 := one_lt_log_of_three_le h3
  have hspread : DBL_EPSILON
      < gridMax (log_magnitude_of (fun (_ : Fin 1) (_ : Fin 2) => 1))
        - gridMin (log_magnitude_of (fun (_ : Fin 1) (_ : Fin 2) => 1)) := by
    rw [hex.1, hex.2, sub_zero]
    exact lt_trans DBL_EPSILON_lt_one hL1
  have ha := h.1 hspread
  exact ⟨hb.1, ha.1, ha.2⟩
